import Mathlib

/-!
Shallow embedding of `anniegraph.py` (the primary script of the
`sashakarcz/anniegraph` repository) and proofs about it.

Python strings are modelled as `List Char` (`Str`), pandas tables as a
header plus a list of rows of cells, floats as `ℚ`, and the side effects
of the renderer as an event trace.  Fallible Python code is modelled in
`Except PyErr`.
-/

/-- Python strings, modelled as lists of characters. -/
abbrev Str := List Char

/-- Python `str.strip()`: remove leading and trailing whitespace. -/
def pyStrip (s : Str) : Str :=
  ((s.dropWhile Char.isWhitespace).reverse.dropWhile Char.isWhitespace).reverse

/-- Python `str.split(sep)` for a one-character separator. -/
def splitOnChar (sep : Char) : Str → List Str
  | [] => [[]]
  | c :: cs =>
    match splitOnChar sep cs with
    | [] => [[]]
    | g :: gs => if c = sep then [] :: g :: gs else (c :: g) :: gs

/-- Python `sep.join(items)`. -/
def joinSep (sep : Str) : List Str → Str
  | [] => []
  | [s] => s
  | s :: r => s ++ sep ++ joinSep sep r

/-- Python truthiness of an optional string (`None` and `""` are falsy). -/
def strTruthy : Option Str → Bool
  | none => false
  | some [] => false
  | some (_ :: _) => true

/-! ## The proleptic Gregorian calendar used by `datetime.strptime`. -/

/-- Gregorian leap-year rule, as in Python's `datetime`. -/
def isLeap (y : ℕ) : Bool := y % 4 == 0 && (y % 100 != 0 || y % 400 == 0)

/-- Length of month `m` (1-12) in a (non-)leap year; 0 outside that range. -/
def monthLen (leap : Bool) : ℕ → ℕ
  | 1 => 31
  | 2 => if leap then 29 else 28
  | 3 => 31
  | 4 => 30
  | 5 => 31
  | 6 => 30
  | 7 => 31
  | 8 => 31
  | 9 => 30
  | 10 => 31
  | 11 => 30
  | 12 => 31
  | _ => 0

/-- Number of days of the year strictly before month `m`. -/
def daysBefore (leap : Bool) : ℕ → ℕ
  | 0 => 0
  | m + 1 => daysBefore leap m + monthLen leap (m + 1)

/-- `daysBefore` counts the days in months `1..m`, so `daysBefore leap m`
(for `m+1` the first unfinished month) matches `datetime`'s ordinal
arithmetic.  Note `daysBefore leap m` here is the total of months `1..m`;
the days before month `m` are `daysBefore leap (m-1)`. -/
def leapsBefore (y : ℕ) : ℕ := y / 4 + y / 400 - y / 100

/-- Day number of `y-m-d` (proleptic Gregorian, day 0 = 0001-01-01),
matching `datetime.date.toordinal` minus one. -/
def rataDie (y m d : ℕ) : ℕ :=
  365 * (y - 1) + leapsBefore (y - 1) + daysBefore (isLeap y) (m - 1) + (d - 1)

/-- Validity of a (year, month, day) triple in the Gregorian calendar. -/
def validYMD (y m d : ℕ) : Bool :=
  1 ≤ y && 1 ≤ m && m ≤ 12 && 1 ≤ d && d ≤ monthLen (isLeap y) m

/-- Validity of an 8-digit `YYYYMMDD` integer encoding of a date. -/
def validDate8 (n : ℕ) : Bool :=
  10000000 ≤ n && n ≤ 99999999 && validYMD (n / 10000) (n / 100 % 100) (n % 100)

/-- Python `int(x)` on a float: truncation toward zero. -/
def pyInt (q : ℚ) : ℤ := if 0 ≤ q then ⌊q⌋ else ⌈q⌉

/-! ## Python exceptions, as an error type. -/

/-- The Python exceptions the scripts can raise, by kind. -/
inductive PyErr where
  | valueError (msg : String)
  | typeError (msg : String)
  | keyError (k : Str)
  | indexError
  | zeroDivision
deriving DecidableEq

/-- `datetime.strptime(str(n), "%Y%m%d")` on the canonical 8-digit
`YYYYMMDD` integer: returns the (year, month, day) digits when they form
a valid Gregorian date, `none` (an exception) otherwise. -/
def parseYYYYMMDD (n : ℤ) : Option (ℕ × ℕ × ℕ) :=
  if 0 ≤ n ∧ validDate8 n.toNat = true then
    some (n.toNat / 10000, n.toNat / 100 % 100, n.toNat % 100)
  else none

/-- `DataProcessor.parse_custom_date`: split the float into integer and
fractional parts, parse the integer part as a `%Y%m%d` date, and add
`timedelta(seconds=frac * 86400)`.  The returned timestamp is measured in
seconds from 0001-01-01 00:00 (day numbering by `rataDie`). -/
def parse_custom_date (q : ℚ) : Except PyErr ℚ :=
  match parseYYYYMMDD (pyInt q) with
  | some (y, m, d) => .ok (86400 * (rataDie y m d : ℚ) + (q - (pyInt q : ℚ)) * 86400)
  | none => .error (.valueError "time data does not match format %Y%m%d")


/-! ## Cells and tables (the pandas data model). -/

deriving instance DecidableEq for Except

/-- A pandas cell: missing (`NaN`), numeric, or string. -/
inductive Cell where
  | na
  | num (q : ℚ)
  | str (s : Str)
deriving DecidableEq

/-- `pd.isna` on one cell. -/
def isNa : Cell → Bool
  | .na => true
  | _ => false

/-- Pandas `cell != 0` (note `NaN != 0` and `"s" != 0` are both `True`). -/
def cellNeZero : Cell → Bool
  | .num q => decide (q ≠ 0)
  | _ => true

/-- Pandas `cell == s` against a Python string `s`. -/
def cellEqStr (c : Cell) (s : Str) : Bool :=
  match c with
  | .str s' => decide (s' = s)
  | _ => false

/-- Pandas `cell >= 0` as used on the `delta T` column (`NaN >= 0` is
`False`; the column is numeric after loading, so the string case is
inert). -/
def cellGE0 : Cell → Bool
  | .num q => decide (0 ≤ q)
  | _ => false

/-- Numeric value of a digit string (0 for the empty string). -/
def digitsNum (s : Str) : ℕ :=
  s.foldl (fun acc c => 10 * acc + (c.toNat - 48)) 0

/-- A decimal-notation parser modelling which strings `pd.to_numeric` and
`float()` accept: optional sign, digits with an optional fractional part,
surrounded by optional whitespace (handled by the caller).  Scientific
notation is outside the modelled scope. -/
def parseDecimal (s : Str) : Option ℚ :=
  let signVal : ℚ := match s with
    | '-' :: _ => -1
    | _ => 1
  let body : Str := match s with
    | '-' :: r => r
    | '+' :: r => r
    | _ => s
  match splitOnChar '.' body with
  | [a] =>
    if a ≠ [] ∧ a.all Char.isDigit then some (signVal * (digitsNum a : ℚ)) else none
  | [a, b] =>
    if (a ≠ [] ∨ b ≠ []) ∧ a.all Char.isDigit ∧ b.all Char.isDigit then
      some (signVal * ((digitsNum a : ℚ) + (digitsNum b : ℚ) / 10 ^ b.length))
    else none
  | _ => none

/-- `pd.to_numeric(·, errors="coerce")` on one cell: uncoercible values
become `NaN`. -/
def toNumericCell : Cell → Cell
  | .na => .na
  | .num q => .num q
  | .str s =>
    match parseDecimal (pyStrip s) with
    | some q => .num q
    | none => .na

/-- `fillna(0)` on one cell. -/
def fillZero : Cell → Cell
  | .na => .num 0
  | c => c

/-- `astype(str)` on one cell.  Numeric formatting is an approximation
(`toString` on the rational); the claims only exercise string-valued
identifier columns. -/
def cellToStr : Cell → Str
  | .str s => s
  | .na => ('n' :: 'a' :: 'n' :: [])
  | .num q => (toString q).toList

/-- A pandas `DataFrame`: column names plus rows of cells. -/
structure Table where
  cols : List Str
  rows : List (List Cell)
deriving DecidableEq

/-- Index of the first occurrence of a name in a column list. -/
def idxOfCol (c : Str) : List Str → Option ℕ
  | [] => none
  | c' :: r => if c' = c then some 0 else (idxOfCol c r).map (· + 1)

/-- Index of a column; `none` when the column is absent. -/
def Table.colIdx (t : Table) (c : Str) : Option ℕ :=
  idxOfCol c t.cols

/-- The cell at row `i`, column `j` (`NaN` beyond the bounds). -/
def Table.cellAt (t : Table) (i j : ℕ) : Cell := (t.rows.getD i []).getD j .na

def decDateCol : Str := ('d' :: 'e' :: 'c' :: '.' :: ' ' :: 'D' :: 'a' :: 't' :: 'e' :: [])

def cometIdCol : Str := ('C' :: 'o' :: 'm' :: 'e' :: 't' :: ' ' :: 'I' :: 'D' :: [])

def deltaTCol : Str := ('d' :: 'e' :: 'l' :: 't' :: 'a' :: ' ' :: 'T' :: [])

/-! ## `DataProcessor` (anniegraph.py). -/

/-- One `dec. Date` cell through `parse_custom_date` (`int()` of a
non-float raises). -/
def parseDateCell : Cell → Except PyErr Cell
  | .num q => (parse_custom_date q).map .num
  | .na => .error (.valueError "cannot convert float NaN to integer")
  | .str _ => .error (.typeError "unsupported operand type")

/-- Replace the cell at position `j` of a row by `f` of it. -/
def mapRowAt (j : ℕ) (f : Cell → Except PyErr Cell) (r : List Cell) :
    Except PyErr (List Cell) := do
  let c ← f (r.getD j .na)
  pure (r.set j c)

/-- Numeric coercion of one row: every column except `dec. Date` and
`Comet ID` goes through `to_numeric(errors="coerce")` then `fillna(0)`. -/
def numericCoerceRow (cols : List Str) (r : List Cell) : List Cell :=
  (cols.zip r).map (fun p =>
    if p.1 = decDateCol ∨ p.1 = cometIdCol then p.2 else fillZero (toNumericCell p.2))

/-- The body of `DataProcessor.load_data` before the `try`/`except`
wrapper: date parsing, numeric coercion with zero fill, optional
comet-id filtering (strip both sides, keep member rows), and the
empty-result warning flag. -/
def load_data_core (comet_ids : Option (List Str)) (t : Table) :
    Except PyErr (Table × Option (List Str) × Bool) := do
  let t1 ← match t.colIdx decDateCol with
    | some j => do
        let rows ← t.rows.mapM (mapRowAt j parseDateCell)
        pure { t with rows := rows }
    | none => pure t
  let t2 : Table := { t1 with rows := t1.rows.map (numericCoerceRow t1.cols) }
  match comet_ids with
  | some ids =>
    if ids.isEmpty then pure (t2, some ids, t2.rows.isEmpty)
    else
      match t2.colIdx cometIdCol with
      | none => .error (.keyError cometIdCol)
      | some j => do
        let rows1 := t2.rows.map (fun r => r.set j (.str (pyStrip (cellToStr (r.getD j .na)))))
        let ids' := ids.map pyStrip
        let rows2 := rows1.filter (fun r =>
          match r.getD j .na with
          | .str s => decide (s ∈ ids')
          | _ => false)
        let t3 : Table := { t2 with rows := rows2 }
        pure (t3, some ids', t3.rows.isEmpty)
  | none => pure (t2, none, t2.rows.isEmpty)

/-- `DataProcessor.load_data`: any internal exception surfaces as the
single `ValueError("Error loading data file: ...")`. -/
def load_data (comet_ids : Option (List Str)) (t : Table) :
    Except PyErr (Table × Option (List Str) × Bool) :=
  match load_data_core comet_ids t with
  | .ok r => .ok r
  | .error _ => .error (.valueError "Error loading data file")

/-- The `DataProcessor` state after construction. -/
structure DataProcessor where
  data : Table
  comet_ids : Option (List Str)
deriving DecidableEq

/-- `DataProcessor.__init__`: run `load_data` and keep the (possibly
re-assigned) comet id list.  The Boolean reports whether the
empty-result warning was printed. -/
def mkDataProcessor (comet_ids : Option (List Str)) (t : Table) :
    Except PyErr (DataProcessor × Bool) :=
  match load_data comet_ids t with
  | .ok (d, ids, w) => .ok ({ data := d, comet_ids := ids }, w)
  | .error e => .error e

/-- `DataProcessor.has_column`. -/
def hasColumn (t : Table) (c : Str) : Bool := (t.colIdx c).isSome

/-! ## `GraphConfig` (anniegraph.py). -/

/-- The resolved configuration object, field for field as in
`GraphConfig.__init__` (floats as `ℚ`, nullable fields as `Option`). -/
structure GraphConfig where
  x_axis : Option Str
  y_axes : List Str
  x_min : Option ℚ
  x_max : Option ℚ
  y_min : Option ℚ
  y_max : Option ℚ
  comet_ids : Option (List Str)
  colors : List Str
  shapes : List Str
  legend : Bool
  dpi : ℤ
  font_size : ℤ
  output_file : Option Str
  output_format : Str
  interactive : Bool
  use_uncertainties : Bool
  delimiter : Str
  column_names : List (Str × Str)
  x_axis_title : Option Str
  y_axis_title : Option Str
  style : Str
  x_ticks : Option ℤ
  y_ticks : Option ℤ
deriving DecidableEq

/-- A YAML configuration mapping as produced by `yaml.safe_load`,
restricted to the keys the script reads.  The outer `Option` is key
presence (`none` means `config.get` falls back to its default); the
inner `Option` of nullable fields is YAML `null`. -/
structure RawConfig where
  x_axis : Option (Option Str)
  y_axes : Option (List Str)
  x_min : Option (Option ℚ)
  x_max : Option (Option ℚ)
  y_min : Option (Option ℚ)
  y_max : Option (Option ℚ)
  comet_ids : Option (Option (List Str))
  colors : Option (List Str)
  shapes : Option (List Str)
  legend : Option Bool
  dpi : Option ℤ
  font_size : Option ℤ
  output_file : Option (Option Str)
  output_format : Option Str
  interactive : Option Bool
  use_uncertainties : Option Bool
  delimiter : Option Str
  column_names : Option (List Str)
  x_axis_title : Option (Option Str)
  y_axis_title : Option (Option Str)
  style : Option Str
  x_ticks : Option (Option ℤ)
  y_ticks : Option (Option ℤ)
deriving DecidableEq

/-- Python dict insertion `d[k] = v`: overwrite in place, else append. -/
def dictInsert (m : List (Str × Str)) (k v : Str) : List (Str × Str) :=
  if m.any (fun p => decide (p.1 = k)) then
    m.map (fun p => if p.1 = k then (k, v) else p)
  else m.concat (k, v)

/-- Python `dict.get(k)` on the rename mapping (`none` when absent). -/
def lookupCN (cn : List (Str × Str)) (k : Str) : Option Str :=
  (cn.find? (fun p => decide (p.1 = k))).map Prod.snd

def parse_column_names_aux (acc : List (Str × Str)) :
    List Str → Except PyErr (List (Str × Str))
  | [] => .ok acc
  | item :: rest =>
    match splitOnChar '=' item with
    | [dn, cn] => parse_column_names_aux (dictInsert acc (pyStrip cn) (pyStrip dn)) rest
    | _ => .error (.valueError "values to unpack")

/-- `GraphConfig.parse_column_names`: each `Display=Column` item becomes
an entry column → display (both stripped); an item that does not split
into exactly two parts raises. -/
def parse_column_names (items : List Str) : Except PyErr (List (Str × Str)) :=
  parse_column_names_aux [] items

/-- The `import_config` branch of `GraphConfig.__init__`, followed by
`validate_config` and the final `if not self.output_file` check.
`validate_config` tests `getattr(self, field) is None` for `x_axis`,
`y_axes` and `output_file`; in this typed model `y_axes` is always a
list, so only the other two tests can fire — exactly as for any YAML
file in which `y_axes`, when present, is a list. -/
def importConfig (f : RawConfig) : Except PyErr GraphConfig :=
  match parse_column_names (f.column_names.getD []) with
  | .error e => .error e
  | .ok cn =>
    let x_axis := f.x_axis.getD none
    let y_axes := f.y_axes.getD []
    let cfg : GraphConfig := {
      x_axis := x_axis
      y_axes := y_axes
      x_min := f.x_min.getD none
      x_max := f.x_max.getD none
      y_min := f.y_min.getD none
      y_max := f.y_max.getD none
      comet_ids := f.comet_ids.getD none
      colors := f.colors.getD []
      shapes := f.shapes.getD []
      legend := f.legend.getD false
      dpi := f.dpi.getD 300
      font_size := f.font_size.getD 12
      output_file := f.output_file.getD (some ("output_graph.html".toList))
      output_format := f.output_format.getD ("png".toList)
      interactive := f.interactive.getD false
      use_uncertainties := f.use_uncertainties.getD false
      delimiter := f.delimiter.getD (',' :: [])
      column_names := cn
      x_axis_title := f.x_axis_title.getD x_axis
      y_axis_title := f.y_axis_title.getD (some (joinSep (" / ".toList) y_axes))
      style := f.style.getD ("classic".toList)
      x_ticks := f.x_ticks.getD none
      y_ticks := f.y_ticks.getD none }
    if cfg.x_axis.isNone then
      .error (.valueError "Missing required configuration field: x_axis")
    else if cfg.output_file.isNone then
      .error (.valueError "Missing required configuration field: output_file")
    else if strTruthy cfg.output_file = false then
      .error (.valueError "Output file must be specified either in the command-line arguments or in the configuration file.")
    else .ok cfg

/-- `GraphConfig.export_to_yaml`: the mapping written to the YAML file.
Every key is written; `column_names` is re-formatted as
`Display=Column` items. -/
def export_to_yaml (c : GraphConfig) : RawConfig := {
  x_axis := some c.x_axis
  y_axes := some c.y_axes
  x_min := some c.x_min
  x_max := some c.x_max
  y_min := some c.y_min
  y_max := some c.y_max
  comet_ids := some c.comet_ids
  colors := some c.colors
  shapes := some c.shapes
  legend := some c.legend
  dpi := some c.dpi
  font_size := some c.font_size
  output_file := some c.output_file
  output_format := some c.output_format
  interactive := some c.interactive
  use_uncertainties := some c.use_uncertainties
  delimiter := some c.delimiter
  column_names := some (c.column_names.map (fun p => p.2 ++ '=' :: p.1))
  x_axis_title := some c.x_axis_title
  y_axis_title := some c.y_axis_title
  style := some c.style
  x_ticks := some c.x_ticks
  y_ticks := some c.y_ticks }

/-- The parsed command-line namespace (`argparse.Namespace`), with the
option values the `args` branch reads. -/
structure Args where
  x_axis : Option Str
  y_axes : Option Str
  x_min : Option ℚ
  x_max : Option ℚ
  y_min : Option ℚ
  y_max : Option ℚ
  comet_id : Option Str
  colors : Option Str
  shapes : Option Str
  legend : Bool
  dpi : ℤ
  font_size : ℤ
  output_file : Option Str
  output_format : Str
  interactive : Bool
  use_uncertainties : Bool
  delimiter : Str
  column_names : Option (List Str)
  x_axis_title : Option Str
  y_axis_title : Option Str
  style : Option Str
  x_ticks : Option ℤ
  y_ticks : Option ℤ
deriving DecidableEq

/-- `opt.split(",") if opt else []`. -/
def splitIfTruthy (s : Option Str) : List Str :=
  if strTruthy s then splitOnChar ',' (s.getD []) else []

/-- The `args` branch of `GraphConfig.__init__` (anniegraph.py).  Note:
this branch performs NO `validate_config` call, and `output_file` is
defaulted to `"output_graph.html"` before the final truthiness check, so
the only exception it can raise comes from `parse_column_names`. -/
def configFromArgs (a : Args) : Except PyErr GraphConfig :=
  match (match a.column_names with
         | some (i :: is) => parse_column_names (i :: is)
         | _ => .ok []) with
  | .error e => .error e
  | .ok cn =>
    let y_axes := splitIfTruthy a.y_axes
    let output_file : Str :=
      if strTruthy a.output_file then a.output_file.getD []
      else "output_graph.html".toList
    let cfg : GraphConfig := {
      x_axis := a.x_axis
      y_axes := y_axes
      x_min := a.x_min
      x_max := a.x_max
      y_min := a.y_min
      y_max := a.y_max
      comet_ids := (match a.comet_id with
        | some (c :: cs) => some (splitOnChar ',' (c :: cs))
        | _ => none)
      colors := splitIfTruthy a.colors
      shapes := splitIfTruthy a.shapes
      legend := a.legend
      dpi := a.dpi
      font_size := a.font_size
      output_file := some output_file
      output_format := a.output_format
      interactive := a.interactive
      use_uncertainties := a.use_uncertainties
      delimiter := a.delimiter
      column_names := cn
      x_axis_title := if strTruthy a.x_axis_title then a.x_axis_title else a.x_axis
      y_axis_title := if strTruthy a.y_axis_title then a.y_axis_title
        else some (joinSep (" / ".toList) y_axes)
      style := if strTruthy a.style then a.style.getD [] else "petroff10".toList
      x_ticks := a.x_ticks
      y_ticks := a.y_ticks }
    if strTruthy cfg.output_file = false then
      .error (.valueError "Output file must be specified either in the command-line arguments or in the configuration file.")
    else .ok cfg

/-! ## `Graph.__init__` mutations. -/

/-- `Graph.rename_columns`: `DataFrame.rename(columns=mapping)` maps
every column name through the rename mapping. -/
def rename_columns (cn : List (Str × Str)) (t : Table) : Table :=
  { t with cols := t.cols.map (fun c => (lookupCN cn c).getD c) }

/-- `Graph.update_y_axes`: rewrite `self.config.y_axes` in place through
the rename mapping (`dict.get(y, y)`). -/
def update_y_axes (cfg : GraphConfig) : GraphConfig :=
  { cfg with y_axes := cfg.y_axes.map (fun y => (lookupCN cfg.column_names y).getD y) }

/-- `Graph.__init__` after storing config and data: the table is renamed
and the configuration's `y_axes` field is mutated. -/
def graphInit (cfg : GraphConfig) (dp : DataProcessor) : GraphConfig × DataProcessor :=
  (update_y_axes cfg, { dp with data := rename_columns cfg.column_names dp.data })

/-! ## The renderer, as an event-trace interpreter. -/

/-- The renderer's observable side effects (matplotlib / plotly calls). -/
inductive Ev where
  | styleUse (s : Str)
  | figure (dpi : ℤ)
  | errorbar (xs ys lo hi : List Cell) (color : Str)
  | scatter (xs ys : List Cell) (color shape : Str) (label : Str)
  | scatterPt (x y : Cell) (filled : Bool) (color shape : Str) (label : Str)
  | xlabel (s : Option Str)
  | ylabel (s : Option Str)
  | legendCall
  | xticks (ticks : List ℤ)
  | yticks (start stop step : ℚ)
  | savefig (file : Str) (fmt : Str)
  | addTrace (xs ys : List Cell) (symbol color : Str) (name : Str)
  | addLineTrace (ys : List Cell) (color : Str)
  | layout (xt yt : Option Str) (legendVisible : Bool)
  | xtickvals (ticks : List ℤ)
  | writeHtml (file : Str)
  | openBrowser (file : Str)
deriving DecidableEq

/-- Writer-plus-exception monad for the renderer: the events emitted so
far, then either a value or the Python exception that aborted the run. -/
abbrev TraceM (α : Type) := List Ev × Except PyErr α

instance : Monad TraceM where
  pure a := ([], .ok a)
  bind m f :=
    match m with
    | (es, .ok a) =>
      match f a with
      | (es', r) => (es ++ es', r)
    | (es, .error e) => (es, .error e)

def emit (e : Ev) : TraceM Unit := ([e], .ok ())

def throwT {α : Type} (e : PyErr) : TraceM α := ([], .error e)

/-- `df[col]` (KeyError when the column is absent), as a column index. -/
def getColIdx (t : Table) (c : Str) : TraceM ℕ :=
  match t.colIdx c with
  | none => throwT (.keyError c)
  | some j => pure j

/-- Cyclic palette indexing `xs[j % len(xs)]`; `len(xs) == 0` makes the
modulus raise `ZeroDivisionError`. -/
def cycIdx (xs : List Str) (j : ℕ) : TraceM Str :=
  match xs with
  | [] => throwT .zeroDivision
  | x :: r => pure ((x :: r).getD (j % (x :: r).length) [])

/-- `astype(float)` on one cell. -/
def astypeFloatCell : Cell → TraceM Cell
  | .na => pure .na
  | .num q => pure (.num q)
  | .str s =>
    match parseDecimal (pyStrip s) with
    | some q => pure (.num q)
    | none => throwT (.valueError "could not convert string to float")

def astypeFloatList : List Cell → TraceM (List Cell)
  | [] => pure []
  | c :: r => do
    let c' ← astypeFloatCell c
    let r' ← astypeFloatList r
    pure (c' :: r')

def sigupSuffix : Str := ('s' :: 'i' :: 'g' :: 'u' :: 'p' :: [])

def sigdnSuffix : Str := ('s' :: 'i' :: 'g' :: 'd' :: 'n' :: [])

/-- Python `range(start, stop, step)` as a list, for a nonzero step. -/
def rangeList (start stop step : ℤ) : List ℤ :=
  let len : ℕ :=
    if 0 < step then (((stop - start) + step - 1) / step).toNat
    else (((start - stop) + (-step) - 1) / (-step)).toNat
  (List.range len).map (fun i => start + step * (i : ℤ))

/-- Python `abs` on a float, as an executable definition (equal to
Mathlib's `|q|`, see `pyAbs_eq_abs`). -/
def pyAbs (q : ℚ) : ℚ := if q < 0 then -q else q

/-- Python `round(q, 6)` (round half to even at the sixth decimal). -/
def round6 (q : ℚ) : ℚ :=
  let scaled := q * 1000000
  let r : ℤ :=
    if Int.fract scaled = 1/2 then
      (if ⌊scaled⌋ % 2 = 0 then ⌊scaled⌋ else ⌊scaled⌋ + 1)
    else round scaled
  (r : ℚ) / 1000000

/-- The per-point plotting loop of the `delta T` branch of
`_render_static`.  Note that Python's `shape = shape if value >= 0 else
"o"` re-binds `shape`, so once a point is hollow every later point of
the same series keeps marker `"o"`. -/
def pointsLoop (color cid : Str) (xC yC deltaC : List Cell) :
    List ℕ → Str → TraceM Unit
  | [], _ => pure ()
  | idx :: rest, shape =>
    let v := deltaC.getD idx .na
    let filled := cellGE0 v
    let shape' := if filled then shape else ('o' :: [])
    do
      emit (.scatterPt (xC.getD idx .na) (yC.getD idx .na) filled color shape'
        (if idx = 0 then cid else []))
      pointsLoop color cid xC yC deltaC rest shape'

/-- The `for j, comet_id in enumerate(self.data_processor.comet_ids)`
loop of `_render_static`.  `rows2` are the table's rows surviving the
missing/zero filter of the current Y axis; boolean-mask indexing with a
full-index mask is row filtering. -/
def cometLoop (cfg : GraphConfig) (t : Table) (ya : Str)
    (rows2 : List (List Cell)) (jx jy : ℕ) (deltaExists : Bool) :
    ℕ → List Str → TraceM Unit
  | _, [] => pure ()
  | j, cid :: rest => do
    let jid ← getColIdx t cometIdCol
    let rowsC := rows2.filter (fun r => cellEqStr (r.getD jid .na) cid)
    let xC := rowsC.map (fun r => r.getD jx .na)
    let yC := rowsC.map (fun r => r.getD jy .na)
    let color ← cycIdx cfg.colors j
    let shape ← cycIdx cfg.shapes j
    (if cfg.use_uncertainties then
      match t.colIdx (ya ++ sigupSuffix), t.colIdx (ya ++ sigdnSuffix) with
      | some ju, some jd => do
        let rowsFullC := t.rows.filter (fun r => cellEqStr (r.getD jid .na) cid)
        let lo ← astypeFloatList (rowsFullC.map (fun r => r.getD jd .na))
        let hi ← astypeFloatList (rowsFullC.map (fun r => r.getD ju .na))
        emit (.errorbar xC yC lo hi color)
      | _, _ => pure ()
    else pure ())
    (if deltaExists then
      let jdel := (t.colIdx deltaTCol).getD 0
      let deltaC := (t.rows.filter (fun r => cellEqStr (r.getD jid .na) cid)).map
        (fun r => r.getD jdel .na)
      pointsLoop color cid xC yC deltaC (List.range xC.length) shape
    else emit (.scatter xC yC color shape cid))
    cometLoop cfg t ya rows2 jx jy deltaExists (j + 1) rest

/-- The `for i, y_axis in enumerate(self.config.y_axes)` loop of
`_render_static`: strip the axis name, select the column, drop missing
then zero values, and loop over the comet-id list (iterating `None`
raises `TypeError`). -/
def yLoop (cfg : GraphConfig) (dp : DataProcessor) (jx : ℕ) :
    List Str → TraceM Unit
  | [] => pure ()
  | yAxis :: rest => do
    let ya := pyStrip yAxis
    let jy ← getColIdx dp.data ya
    let rows1 := dp.data.rows.filter (fun r => !(isNa (r.getD jy .na)))
    let rows2 := rows1.filter (fun r =>
      cellNeZero (r.getD jy .na) && !(isNa (r.getD jy .na)))
    let deltaExists := hasColumn dp.data deltaTCol
    (match dp.comet_ids with
     | none => throwT (.typeError "argument of type NoneType is not iterable")
     | some ids => cometLoop cfg dp.data ya rows2 jx jy deltaExists 0 ids)
    yLoop cfg dp jx rest

/-- `Graph._render_static` (anniegraph.py): style and figure setup, the
plotting loops, labels, legend, the tick computations, and the final
`savefig`. -/
def render_static (cfg : GraphConfig) (dp : DataProcessor) : TraceM Unit := do
  emit (.styleUse cfg.style)
  emit (.figure cfg.dpi)
  let jx ← match cfg.x_axis with
    | none => throwT (.keyError [])
    | some xa => getColIdx dp.data xa
  yLoop cfg dp jx cfg.y_axes
  emit (.xlabel cfg.x_axis_title)
  emit (.ylabel cfg.y_axis_title)
  (if cfg.legend then emit .legendCall else pure ())
  (match cfg.x_ticks with
   | some k =>
     if k = 0 then pure ()
     else
       match cfg.x_min, cfg.x_max with
       | some xmin, some xmax =>
         let step := pyInt ((xmax - xmin) / (k : ℚ))
         if step = 0 then throwT (.valueError "range() arg 3 must not be zero")
         else emit (.xticks (rangeList (pyInt xmin) (pyInt xmax + 1) step))
       | _, _ => throwT (.typeError "unsupported operand type for None")
   | none => pure ())
  (match cfg.y_ticks with
   | some k =>
     if k = 0 then pure ()
     else
       match cfg.y_min, cfg.y_max with
       | some ymin, some ymax =>
         let ystep := (ymax - ymin) / (k : ℚ)
         if pyAbs ystep < 1 / 1000000 then
           throwT (.valueError "y_step is too small. Adjust y_max, y_min, or y_ticks.")
         else
           let ystep2 := if ystep < 0 then -ystep else ystep
           let ystep3 := round6 ystep2
           emit (.yticks ymin (ymax + ystep3) ystep3)
       | _, _ => throwT (.typeError "unsupported operand type for None")
   | none => pure ())
  match cfg.output_file with
  | none => throwT (.typeError "savefig expects a path")
  | some f => emit (.savefig f cfg.output_format)

/-- The fixed matplotlib-to-plotly marker symbol table of
`_render_interactive`. -/
def marker_mapping : List (Str × Str) := [
  ("o".toList, "circle".toList),
  ("s".toList, "square".toList),
  ("^".toList, "triangle-up".toList),
  ("v".toList, "triangle-down".toList),
  ("<".toList, "triangle-left".toList),
  (">".toList, "triangle-right".toList),
  ("d".toList, "diamond".toList),
  ("h".toList, "hexagon".toList),
  ("+".toList, "cross".toList),
  ("x".toList, "x".toList)]

/-- `marker_mapping.get(k, default)`. -/
def markerGet (k dflt : Str) : Str :=
  ((marker_mapping.find? (fun p => decide (p.1 = k))).map Prod.snd).getD dflt

/-- A pandas series as (index, value) pairs. -/
def colIndexed (t : Table) (j : ℕ) : List (ℕ × Cell) :=
  (t.rows.map (fun r => r.getD j .na)).enum

/-- `series[idx]` by index label (KeyError when the label was dropped). -/
def seriesGet (s : List (ℕ × Cell)) (i : ℕ) : TraceM Cell :=
  match s.find? (fun p => p.1 == i) with
  | some p => pure p.2
  | none => throwT (.keyError [])

/-- Pandas index-aligned `y + sig` over the full index (`NaN` where `y`
was dropped). -/
def addAligned (yD full : List (ℕ × Cell)) : List Cell :=
  full.map (fun p =>
    match yD.find? (fun q => q.1 == p.1) with
    | some q =>
      match q.2, p.2 with
      | .num a, .num b => .num (a + b)
      | _, _ => .na
    | none => .na)

/-- Pandas index-aligned `y - sig` over the full index. -/
def subAligned (yD full : List (ℕ × Cell)) : List Cell :=
  full.map (fun p =>
    match yD.find? (fun q => q.1 == p.1) with
    | some q =>
      match q.2, p.2 with
      | .num a, .num b => .num (a - b)
      | _, _ => .na
    | none => .na)

/-- The per-point loop of the `delta T` branch of `_render_interactive`
(`for idx, value in delta_t.items()` over every row). -/
def interPointsLoop (cfg : GraphConfig) (i : ℕ) (ya : Str)
    (xD yD : List (ℕ × Cell)) : List (ℕ × Cell) → TraceM Unit
  | [] => pure ()
  | (idx, v) :: rest => do
    let shape ←
      if cellGE0 v then
        match cfg.shapes with
        | [] => throwT .indexError
        | s0 :: _ => pure (markerGet s0 ("circle".toList))
      else
        match cfg.shapes with
        | _ :: s1 :: _ => pure (markerGet s1 ("circle-open".toList))
        | _ => throwT .indexError
    let color ← cycIdx cfg.colors i
    let xv ← seriesGet xD idx
    let yv ← seriesGet yD idx
    emit (.addTrace (xv :: []) (yv :: []) shape color
      (if idx = 0 then (lookupCN cfg.column_names ya).getD ya else []))
    interPointsLoop cfg i ya xD yD rest

/-- The Y-axis loop of `_render_interactive`.  The first list argument is
the current `x` series: Python re-binds `x = x.dropna()` inside the
loop, so the drop accumulates across iterations. -/
def interYLoop (cfg : GraphConfig) (t : Table) (deltaExists : Bool) :
    List (ℕ × Cell) → ℕ → List Str → TraceM Unit
  | _, _, [] => pure ()
  | xCur, i, yAxis :: rest => do
    let ya := pyStrip yAxis
    let jy ← getColIdx t ya
    let yInd := colIndexed t jy
    let xD := xCur.filter (fun p => !(isNa p.2))
    let yD := yInd.filter (fun p => !(isNa p.2))
    (if deltaExists then
      let jdel := (t.colIdx deltaTCol).getD 0
      interPointsLoop cfg i ya xD yD (colIndexed t jdel)
    else do
      let shape ← cycIdx cfg.shapes i
      let sym := markerGet shape ("circle".toList)
      let color ← cycIdx cfg.colors i
      emit (.addTrace (xD.map Prod.snd) (yD.map Prod.snd) sym color
        ((lookupCN cfg.column_names ya).getD ya)))
    (if cfg.use_uncertainties then
      match t.colIdx (ya ++ sigupSuffix), t.colIdx (ya ++ sigdnSuffix) with
      | some ju, some jd => do
        let c1 ← cycIdx cfg.colors i
        emit (.addLineTrace (addAligned yD (colIndexed t ju)) c1)
        let c2 ← cycIdx cfg.colors i
        emit (.addLineTrace (subAligned yD (colIndexed t jd)) c2)
      | _, _ => pure ()
    else pure ())
    interYLoop cfg t deltaExists xD (i + 1) rest

/-- `Graph._render_interactive` (anniegraph.py). -/
def render_interactive (cfg : GraphConfig) (dp : DataProcessor) : TraceM Unit := do
  let jx ← match cfg.x_axis with
    | none => throwT (.keyError [])
    | some xa => getColIdx dp.data xa
  let deltaExists := hasColumn dp.data deltaTCol
  interYLoop cfg dp.data deltaExists (colIndexed dp.data jx) 0 cfg.y_axes
  emit (.layout cfg.x_axis_title cfg.y_axis_title cfg.legend)
  (match cfg.x_ticks with
   | some k =>
     if k = 0 then pure ()
     else
       match cfg.x_min, cfg.x_max with
       | some xmin, some xmax =>
         let step := pyInt ((xmax - xmin) / (k : ℚ))
         if step = 0 then throwT (.valueError "range() arg 3 must not be zero")
         else emit (.xtickvals (rangeList (pyInt xmin) (pyInt xmax + 1) step))
       | _, _ => throwT (.typeError "unsupported operand type for None")
   | none => pure ())
  match cfg.output_file with
  | none => throwT (.typeError "write_html expects a path")
  | some f => do
    emit (.writeHtml f)
    emit (.openBrowser f)

/-- `Graph.render`. -/
def render (cfg : GraphConfig) (dp : DataProcessor) : TraceM Unit :=
  if cfg.interactive then render_interactive cfg dp else render_static cfg dp

/-- The events that are drawing calls (scatter or errorbar points). -/
def isDrawEv : Ev → Bool
  | .scatter _ _ _ _ _ => true
  | .scatterPt _ _ _ _ _ _ => true
  | .errorbar _ _ _ _ _ => true
  | .addTrace _ _ _ _ _ => true
  | .addLineTrace _ _ => true
  | _ => false

/-! ## Specification-side definitions used to state the claims. -/

/-- A rename-mapping entry in the normal form `parse_column_names`
produces: both names stripped and free of `=`. -/
def cleanPair (p : Str × Str) : Bool :=
  decide ('=' ∉ p.1) && decide ('=' ∉ p.2) &&
  decide (pyStrip p.1 = p.1) && decide (pyStrip p.2 = p.2)

/-- Column keys pairwise distinct (as in a Python dict). -/
def keysFresh : List (Str × Str) → Bool
  | [] => true
  | p :: r => !(r.any (fun q => decide (q.1 = p.1))) && keysFresh r

/-- A valid configuration for the round-trip claim: the required fields
are present (an `x_axis` and a non-empty output path) and the rename
mapping is in the normal form `parse_column_names` itself produces. -/
def validCfg (c : GraphConfig) : Bool :=
  c.x_axis.isSome && strTruthy c.output_file &&
  c.column_names.all cleanPair && keysFresh c.column_names

/-- The scatter events of a trace. -/
def scatterEvs (es : List Ev) : List Ev :=
  es.filter (fun e => match e with
    | .scatter _ _ _ _ _ => true
    | _ => false)

/-- Events that plot an empty series (or plot nothing at all). -/
def emptySeriesEv : Ev → Bool
  | .scatter xs ys _ _ _ => xs.isEmpty && ys.isEmpty
  | .errorbar xs ys lo hi _ => xs.isEmpty && ys.isEmpty && lo.isEmpty && hi.isEmpty
  | .scatterPt _ _ _ _ _ _ => false
  | .addTrace xs ys _ _ _ => xs.isEmpty && ys.isEmpty
  | .addLineTrace ys _ => ys.isEmpty
  | _ => true

/-- The series the mapper is specified to produce for one Y column and
one identifier: the rows whose Y value is neither missing nor zero and
whose identifier matches, projected to (X, Y). -/
def mapperSeries (t : Table) (jx jy jid : ℕ) (cid : Str) : List Cell × List Cell :=
  let keep := t.rows.filter (fun r =>
    (!(isNa (r.getD jy .na))) && cellNeZero (r.getD jy .na) &&
    cellEqStr (r.getD jid .na) cid)
  (keep.map (fun r => r.getD jx .na), keep.map (fun r => r.getD jy .na))

/-- The scatter events the static renderer is specified to emit for the
identifiers of the filter list (`j` drives the cyclic palettes). -/
def idsScatterSpec (t : Table) (jx jy jid : ℕ) (colors shapes : List Str) :
    ℕ → List Str → List Ev
  | _, [] => []
  | j, cid :: rest =>
    .scatter (mapperSeries t jx jy jid cid).1 (mapperSeries t jx jy jid cid).2
      (colors.getD (j % colors.length) []) (shapes.getD (j % shapes.length) []) cid
      :: idsScatterSpec t jx jy jid colors shapes (j + 1) rest

/-- The full specified scatter-event list: Y axes outer, filter-list
identifiers inner. -/
def staticSeriesSpec (t : Table) (jx jid : ℕ) (colors shapes : List Str)
    (ids : List Str) : List Str → List Ev
  | [] => []
  | ya :: rest =>
    idsScatterSpec t jx ((t.colIdx (pyStrip ya)).getD 0) jid colors shapes 0 ids ++
    staticSeriesSpec t jx jid colors shapes ids rest

/-- The scatter events `cometLoop` emits, code-shaped: series drawn from
the doubly filtered rows, cyclic palettes indexed by the running `j`. -/
def cometScatters (rows2 : List (List Cell)) (jx jy jid : ℕ)
    (colors shapes : List Str) : ℕ → List Str → List Ev
  | _, [] => []
  | j, cid :: rest =>
    Ev.scatter
      ((rows2.filter (fun r => cellEqStr (r.getD jid .na) cid)).map
        (fun r => r.getD jx .na))
      ((rows2.filter (fun r => cellEqStr (r.getD jid .na) cid)).map
        (fun r => r.getD jy .na))
      (colors.getD (j % colors.length) []) (shapes.getD (j % shapes.length) []) cid
      :: cometScatters rows2 jx jy jid colors shapes (j + 1) rest

/-! ## Concrete instances used by counterexamples and witnesses. -/

def colX : Str := "x".toList

def colY : Str := "y".toList

/-- A command line with none of the axis or output options given. -/
def argsC2 : Args := {
  x_axis := none, y_axes := none, x_min := none, x_max := none,
  y_min := none, y_max := none, comet_id := none, colors := none,
  shapes := none, legend := false, dpi := 300, font_size := 12,
  output_file := none, output_format := "png".toList, interactive := false,
  use_uncertainties := false, delimiter := ('\t' :: []), column_names := none,
  x_axis_title := none, y_axis_title := none, style := some ("classic".toList),
  x_ticks := none, y_ticks := none }

/-- The configuration `configFromArgs argsC2` actually constructs. -/
def cfgC2out : GraphConfig := {
  x_axis := none, y_axes := [], x_min := none, x_max := none,
  y_min := none, y_max := none, comet_ids := none, colors := [], shapes := [],
  legend := false, dpi := 300, font_size := 12,
  output_file := some ("output_graph.html".toList), output_format := "png".toList,
  interactive := false, use_uncertainties := false, delimiter := ('\t' :: []),
  column_names := [], x_axis_title := none,
  y_axis_title := some [], style := "classic".toList,
  x_ticks := none, y_ticks := none }

/-- A YAML mapping with the `x_axis` key absent. -/
def rawC2 : RawConfig := {
  x_axis := none, y_axes := some [colY], x_min := none, x_max := none,
  y_min := none, y_max := none, comet_ids := none, colors := none, shapes := none,
  legend := none, dpi := none, font_size := none,
  output_file := some (some ("out.png".toList)), output_format := none,
  interactive := none, use_uncertainties := none, delimiter := none,
  column_names := none, x_axis_title := none, y_axis_title := none,
  style := none, x_ticks := none, y_ticks := none }

/-- A baseline sane configuration for the renderer claims. -/
def cfgBase : GraphConfig := {
  x_axis := some colX, y_axes := [colY], x_min := none, x_max := none,
  y_min := none, y_max := none, comet_ids := some ["A".toList],
  colors := ["b".toList], shapes := ["o".toList], legend := false,
  dpi := 300, font_size := 12, output_file := some ("out.png".toList),
  output_format := "png".toList, interactive := false, use_uncertainties := false,
  delimiter := (',' :: []), column_names := [], x_axis_title := some colX,
  y_axis_title := some colY, style := "classic".toList,
  x_ticks := none, y_ticks := none }

/-- A valid configuration with a non-trivial rename mapping. -/
def cfgC1 : GraphConfig := { cfgBase with
  x_min := some (-1), x_max := some 5, y_max := some (7/2),
  colors := ["b".toList, "r".toList], legend := true, use_uncertainties := true,
  column_names := [("mag".toList, "OriginalMag".toList), ("r".toList, "Radius".toList)],
  y_axis_title := none, x_ticks := some 4 }

def cfgC8 : GraphConfig := { cfgC1 with y_axes := ["mag".toList] }

def dpC8 : DataProcessor :=
  { data := { cols := [colX, "mag".toList], rows := [] },
    comet_ids := some ["A".toList] }

/-- Same mapping, but no Y-axis name is a key of it. -/
def cfgC8w : GraphConfig := { cfgC8 with y_axes := [colY] }

def tblC5 : Table := {
  cols := [colX, colY, cometIdCol],
  rows := [[.str ("1.5".toList), .str ("zz".toList), .str ("A".toList)],
           [.na, .num 3, .str ("B".toList)]] }

def tblC6 : Table := {
  cols := [colX, colY, cometIdCol],
  rows := [[.num 1, .num 2, .str ("A".toList)]] }

def tblC6w : Table := {
  cols := [colX, cometIdCol],
  rows := [[.num 1, .str ("  A ".toList)], [.num 2, .str ("B".toList)]] }

def tblC7 : Table := {
  cols := [colX, colY, cometIdCol],
  rows := [[.num 1, .num 2, .str ("B".toList)]] }

def cfgC3 : GraphConfig :=
  { cfgBase with y_min := some 0, y_max := some 0, y_ticks := some 1 }

def dpC3 : DataProcessor := { data := tblC6, comet_ids := some ["A".toList] }

def cfgC3w : GraphConfig :=
  { cfgBase with y_axes := [], y_min := some 1, y_max := some 1, y_ticks := some 3 }

/-- A data processor whose filter list was never supplied. -/
def dpC9 : DataProcessor := { data := tblC6, comet_ids := none }

def tblC9w : Table := {
  cols := [colX, colY, cometIdCol],
  rows := [[.num 1, .num 0, .str ("A".toList)],
           [.num 2, .num 5, .str ("A".toList)],
           [.num 3, .num 4, .str ("B".toList)]] }

def dpC9w : DataProcessor :=
  { data := tblC9w, comet_ids := some ["A".toList, "B".toList] }

def cfgC10 : GraphConfig := { cfgBase with y_axes := [], colors := [], shapes := [] }

def dpC10 : DataProcessor := { data := tblC6, comet_ids := some ["A".toList] }

def cfgC10s : GraphConfig := { cfgBase with colors := [] }

def cfgC10i : GraphConfig := { cfgBase with shapes := [], interactive := true }

/-! ## Basic calendar lemmas. -/

theorem leapsBefore_le_left (y : ℕ) : y / 100 ≤ y / 4 + y / 400 :=
  le_trans (Nat.div_le_div_left (by norm_num) (by norm_num)) (Nat.le_add_right _ _)

theorem div_sub_div_le_div_sub_div {a b : ℕ} (h : a ≤ b) :
    b / 100 ≤ a / 100 + (b / 4 - a / 4) := by
  have h4 : a / 4 ≤ b / 4 := Nat.div_le_div_right h
  have hb : b / 4 ≤ a / 4 + 25 * (b / 4 - a / 4) := by omega
  have := Nat.div_le_div_right (c := 25) hb
  have hadd : (a / 4 + 25 * (b / 4 - a / 4)) / 25 = a / 4 / 25 + (b / 4 - a / 4) :=
    Nat.add_mul_div_left _ _ (by norm_num)
  have e1 : b / 4 / 25 = b / 100 := by
    rw [Nat.div_div_eq_div_mul]
  have e2 : a / 4 / 25 = a / 100 := by
    rw [Nat.div_div_eq_div_mul]
  omega

theorem leapsBefore_mono {a b : ℕ} (h : a ≤ b) : leapsBefore a ≤ leapsBefore b := by
  have h4 : a / 4 ≤ b / 4 := Nat.div_le_div_right h
  have h400 : a / 400 ≤ b / 400 := Nat.div_le_div_right h
  have h100 : b / 100 ≤ a / 100 + (b / 4 - a / 4) := div_sub_div_le_div_sub_div h
  have ha : a / 100 ≤ a / 4 + a / 400 := leapsBefore_le_left a
  have hb : b / 100 ≤ b / 4 + b / 400 := leapsBefore_le_left b
  unfold leapsBefore
  omega

theorem leapsBefore_succ_of_leap {y : ℕ} (hy : 1 ≤ y) (hl : isLeap y = true) :
    leapsBefore (y - 1) + 1 ≤ leapsBefore y := by
  obtain ⟨z, rfl⟩ : ∃ z, y = z + 1 := ⟨y - 1, by omega⟩
  have e4 : (z + 1) / 4 = z / 4 + if 4 ∣ z + 1 then 1 else 0 := Nat.succ_div z 4
  have e100 : (z + 1) / 100 = z / 100 + if 100 ∣ z + 1 then 1 else 0 := Nat.succ_div z 100
  have e400 : (z + 1) / 400 = z / 400 + if 400 ∣ z + 1 then 1 else 0 := Nat.succ_div z 400
  have hz100 : z / 100 ≤ z / 4 + z / 400 := leapsBefore_le_left z
  simp only [isLeap, Bool.and_eq_true, beq_iff_eq, Bool.or_eq_true,
    bne_iff_ne, ne_eq] at hl
  unfold leapsBefore
  simp only [Nat.add_sub_cancel]
  rcases hl with ⟨h4, h100 | h400⟩
  · have d4 : 4 ∣ z + 1 := by omega
    have d100 : ¬ 100 ∣ z + 1 := by omega
    have d400 : ¬ 400 ∣ z + 1 := by
      intro hc
      exact d100 (dvd_trans (by norm_num) hc)
    rw [e4, e100, e400]
    simp [d4, d100, d400]
    omega
  · have d4 : 4 ∣ z + 1 := by omega
    have d400 : 400 ∣ z + 1 := by omega
    have d100 : 100 ∣ z + 1 := dvd_trans (by norm_num) d400
    rw [e4, e100, e400]
    simp [d4, d100, d400]
    omega

theorem daysBefore_mono (leap : Bool) {m m' : ℕ} (h : m ≤ m') :
    daysBefore leap m ≤ daysBefore leap m' := by
  induction m' with
  | zero => simp [Nat.le_zero.mp h]
  | succ k ih =>
    rcases Nat.lt_or_ge m (k + 1) with hlt | hge
    · calc daysBefore leap m ≤ daysBefore leap k := ih (by omega)
        _ ≤ daysBefore leap k + monthLen leap (k + 1) := Nat.le_add_right _ _
        _ = daysBefore leap (k + 1) := rfl
    · have : m = k + 1 := by omega
      subst this
      exact le_refl _

theorem daysBefore_total (leap : Bool) :
    daysBefore leap 12 = if leap then 366 else 365 := by
  cases leap <;> decide

theorem monthLen_pos {leap : Bool} {m : ℕ} (h1 : 1 ≤ m) (h2 : m ≤ 12) :
    1 ≤ monthLen leap m := by
  interval_cases m <;> cases leap <;> decide

/-- Within one year, lexicographic month/day order gives strict `rataDie` order. -/
theorem rataDie_lt_same_year {y m1 d1 m2 d2 : ℕ}
    (hv1 : validYMD y m1 d1 = true) (hv2 : validYMD y m2 d2 = true)
    (hlt : m1 < m2 ∨ (m1 = m2 ∧ d1 < d2)) :
    rataDie y m1 d1 < rataDie y m2 d2 := by
  simp only [validYMD, Bool.and_eq_true, decide_eq_true_eq] at hv1 hv2
  obtain ⟨⟨⟨⟨hy1, hm1a⟩, hm1b⟩, hd1a⟩, hd1b⟩ := hv1
  obtain ⟨⟨⟨⟨_, hm2a⟩, hm2b⟩, hd2a⟩, hd2b⟩ := hv2
  unfold rataDie
  rcases hlt with hm | ⟨rfl, hd⟩
  · have hstep : daysBefore (isLeap y) (m1 - 1) + monthLen (isLeap y) m1
        = daysBefore (isLeap y) m1 := by
      obtain ⟨k, rfl⟩ : ∃ k, m1 = k + 1 := ⟨m1 - 1, by omega⟩
      simp [daysBefore]
    have hmono : daysBefore (isLeap y) m1 ≤ daysBefore (isLeap y) (m2 - 1) :=
      daysBefore_mono _ (by omega)
    omega
  · omega

/-- Across years, higher year gives strictly larger `rataDie`. -/
theorem rataDie_lt_year {y1 m1 d1 y2 m2 d2 : ℕ}
    (hv1 : validYMD y1 m1 d1 = true) (hv2 : validYMD y2 m2 d2 = true)
    (hy : y1 < y2) :
    rataDie y1 m1 d1 < rataDie y2 m2 d2 := by
  simp only [validYMD, Bool.and_eq_true, decide_eq_true_eq] at hv1 hv2
  obtain ⟨⟨⟨⟨hy1, hm1a⟩, hm1b⟩, hd1a⟩, hd1b⟩ := hv1
  obtain ⟨⟨⟨⟨hy2', hm2a⟩, hm2b⟩, hd2a⟩, hd2b⟩ := hv2
  unfold rataDie
  have hub : daysBefore (isLeap y1) (m1 - 1) + (d1 - 1)
      < daysBefore (isLeap y1) 12 := by
    have hstep : daysBefore (isLeap y1) (m1 - 1) + monthLen (isLeap y1) m1
        = daysBefore (isLeap y1) m1 := by
      obtain ⟨k, rfl⟩ : ∃ k, m1 = k + 1 := ⟨m1 - 1, by omega⟩
      simp [daysBefore]
    have hmono : daysBefore (isLeap y1) m1 ≤ daysBefore (isLeap y1) 12 :=
      daysBefore_mono _ (by omega)
    omega
  have htot := daysBefore_total (isLeap y1)
  have hlm : leapsBefore (y2 - 1) ≥ leapsBefore y1 := leapsBefore_mono (by omega)
  by_cases hl : isLeap y1 = true
  · have hsucc := leapsBefore_succ_of_leap hy1 hl
    rw [hl] at htot hub ⊢
    simp only [if_true] at htot
    omega
  · have hmono2 : leapsBefore (y1 - 1) ≤ leapsBefore y1 := leapsBefore_mono (by omega)
    rw [Bool.not_eq_true] at hl
    rw [hl] at htot hub ⊢
    simp only [if_false, Bool.false_eq_true] at htot
    omega

/-- `rataDie` on the digit decomposition of an 8-digit date integer. -/
def rataDie8 (n : ℕ) : ℕ := rataDie (n / 10000) (n / 100 % 100) (n % 100)

/-- Strict monotonicity of `rataDie8` over valid encoded dates: numeric
order of `YYYYMMDD` integers matches calendar order. -/
theorem rataDie8_strictMono {n1 n2 : ℕ}
    (h1 : validDate8 n1 = true) (h2 : validDate8 n2 = true) (h : n1 < n2) :
    rataDie8 n1 < rataDie8 n2 := by
  simp only [validDate8, Bool.and_eq_true, decide_eq_true_eq] at h1 h2
  obtain ⟨⟨hlo1, hhi1⟩, hv1⟩ := h1
  obtain ⟨⟨hlo2, hhi2⟩, hv2⟩ := h2
  have hb1 := hv1
  have hb2 := hv2
  simp only [validYMD, Bool.and_eq_true, decide_eq_true_eq] at hb1 hb2
  obtain ⟨⟨⟨⟨_, hm1a⟩, hm1b⟩, hd1a⟩, hd1b⟩ := hb1
  obtain ⟨⟨⟨⟨_, hm2a⟩, hm2b⟩, hd2a⟩, hd2b⟩ := hb2
  have hd1c : n1 % 100 ≤ 31 := by
    have : monthLen (isLeap (n1 / 10000)) (n1 / 100 % 100) ≤ 31 := by
      have hm := hm1a
      interval_cases h : (n1 / 100 % 100) <;> cases isLeap (n1 / 10000) <;> simp [monthLen]
    omega
  have hd2c : n2 % 100 ≤ 31 := by
    have : monthLen (isLeap (n2 / 10000)) (n2 / 100 % 100) ≤ 31 := by
      interval_cases h : (n2 / 100 % 100) <;> cases isLeap (n2 / 10000) <;> simp [monthLen]
    omega
  unfold rataDie8
  rcases Nat.lt_trichotomy (n1 / 10000) (n2 / 10000) with hy | hy | hy
  · exact rataDie_lt_year hv1 hv2 hy
  · rw [hy] at hv1 ⊢
    apply rataDie_lt_same_year hv1 hv2
    omega
  · omega

theorem pyInt_natCast_add_fract (n : ℕ) (f : ℚ) (hf0 : 0 ≤ f) (hf1 : f < 1) :
    pyInt ((n : ℚ) + f) = (n : ℤ) := by
  have hfl : ⌊f⌋ = 0 := Int.floor_eq_zero_iff.mpr ⟨hf0, hf1⟩
  have hq0 : (0:ℚ) ≤ (n : ℚ) + f := by positivity
  unfold pyInt
  rw [if_pos hq0, show ((n:ℚ)) = (((n:ℤ)):ℚ) by push_cast ; ring,
    Int.floor_int_add, hfl, add_zero]

theorem parse_custom_date_eq (n : ℕ) (f : ℚ)
    (hv : validDate8 n = true) (hf0 : 0 ≤ f) (hf1 : f < 1) :
    parse_custom_date ((n : ℚ) + f) = .ok (86400 * (rataDie8 n : ℚ) + f * 86400) := by
  have htn : ((n : ℤ)).toNat = n := Int.toNat_natCast n
  have hpy := pyInt_natCast_add_fract n f hf0 hf1
  have hparse : parseYYYYMMDD ((n : ℤ)) = some (n / 10000, n / 100 % 100, n % 100) := by
    unfold parseYYYYMMDD
    rw [if_pos]
    · rw [htn]
    · rw [htn]
      exact ⟨Int.natCast_nonneg n, hv⟩
  unfold parse_custom_date
  rw [hpy, hparse]
  simp only [rataDie8]
  congr 1
  push_cast
  ring

/-- C4: for every encoded value `YYYYMMDD.fraction` whose integer part is
a valid Gregorian date and whose fraction lies in `[0, 1)`, the decoder
succeeds, the decoded timestamp's date component (its day number,
`⌊t / 86400⌋`) is precisely the integer part parsed as a `YYYYMMDD` date,
its time-of-day offset is the fraction times 86400 seconds, and the
decoder is monotone in the raw encoded value. -/
theorem c4_custom_date_decode (n : ℕ) (f : ℚ)
    (hv : validDate8 n = true) (hf0 : 0 ≤ f) (hf1 : f < 1) :
    ∃ t, parse_custom_date ((n : ℚ) + f) = .ok t ∧
      ⌊t / 86400⌋ = (rataDie8 n : ℤ) ∧
      t - 86400 * ⌊t / 86400⌋ = f * 86400 ∧
      ∀ n' f' t', validDate8 n' = true → 0 ≤ f' → f' < 1 →
        (n : ℚ) + f ≤ (n' : ℚ) + f' →
        parse_custom_date ((n' : ℚ) + f') = .ok t' → t ≤ t' := by
  have hfloor : ⌊(86400 * (rataDie8 n : ℚ) + f * 86400) / 86400⌋ = (rataDie8 n : ℤ) := by
    have hdiv : (86400 * (rataDie8 n : ℚ) + f * 86400) / 86400 = (rataDie8 n : ℚ) + f := by
      field_simp
      ring
    rw [hdiv, Int.floor_eq_iff]
    constructor
    · push_cast
      linarith
    · push_cast
      linarith
  refine ⟨_, parse_custom_date_eq n f hv hf0 hf1, hfloor, ?_, ?_⟩
  · rw [hfloor]
    push_cast
    ring
  · intro n' f' t' hv' hf0' hf1' hle hdec
    have hdec' := parse_custom_date_eq n' f' hv' hf0' hf1'
    rw [hdec] at hdec'
    have ht' : t' = 86400 * (rataDie8 n' : ℚ) + f' * 86400 := by
      exact (Except.ok.injEq _ _).mp hdec'
    rw [ht']
    rcases Nat.lt_trichotomy n n' with h | h | h
    · have hR : rataDie8 n < rataDie8 n' := rataDie8_strictMono hv hv' h
      have hRq : (rataDie8 n : ℚ) + 1 ≤ (rataDie8 n' : ℚ) := by
        exact_mod_cast hR
      nlinarith
    · subst h
      have hff : f ≤ f' := by linarith
      nlinarith
    · exfalso
      have hnq : (n' : ℚ) + 1 ≤ (n : ℚ) := by
        exact_mod_cast h
      linarith

/-- Witness for C4 at the concrete encoded date `20240229.5` (noon of the
2024 leap day), compared against `20240301.0`. -/
theorem c4_custom_date_decode_witness :
    ∃ t, parse_custom_date ((20240229 : ℕ) + (1/2 : ℚ)) = .ok t ∧
      ⌊t / 86400⌋ = (rataDie8 20240229 : ℤ) ∧
      t - 86400 * ⌊t / 86400⌋ = (1/2 : ℚ) * 86400 ∧
      ∀ n' f' t', validDate8 n' = true → 0 ≤ f' → f' < 1 →
        ((20240229 : ℕ) : ℚ) + (1/2 : ℚ) ≤ (n' : ℚ) + f' →
        parse_custom_date ((n' : ℚ) + f') = .ok t' → t ≤ t' :=
  c4_custom_date_decode 20240229 (1/2) (by decide) (by norm_num) (by norm_num)

/-! ## C2: validation of required configuration fields. -/

/-- C2 counterexample: on the discrete-options path, with `x_axis`,
`y_axes` and `output_file` all absent, `GraphConfig.__init__` performs
no validation (the `args` branch never calls `validate_config`), fills
`output_file` with a default, and construction succeeds instead of
raising. -/
theorem c2_missing_fields_counterexample :
    argsC2.x_axis = none ∧ argsC2.y_axes = none ∧ argsC2.output_file = none ∧
    configFromArgs argsC2 = .ok cfgC2out := by
  refine ⟨rfl, rfl, rfl, ?_⟩
  rfl

/-- C2 (amended): only the structured-config path validates, and there
an absent (or null) `x_axis` raises the `ValueError` naming the field,
provided the rename directives parse; an empty `y_axes` list passes the
`is None` test and an absent `output_file` is silently defaulted, and
the discrete-options path validates nothing (see the counterexample). -/
theorem c2_missing_x_axis_raises (f : RawConfig) (cn : List (Str × Str))
    (hx : f.x_axis = none ∨ f.x_axis = some none)
    (hcn : parse_column_names (f.column_names.getD []) = .ok cn) :
    importConfig f
      = .error (.valueError "Missing required configuration field: x_axis") := by
  unfold importConfig
  rw [hcn]
  rcases hx with h | h <;> simp [h]

/-- Witness for the amended C2 at a concrete YAML mapping. -/
theorem c2_missing_x_axis_raises_witness :
    importConfig rawC2
      = .error (.valueError "Missing required configuration field: x_axis") :=
  c2_missing_x_axis_raises rawC2 [] (Or.inl rfl) rfl

/-! ## C8: immutability of the configuration after construction. -/

/-- C8 counterexample: `Graph.update_y_axes` mutates the configuration
during `Graph.__init__`, so the configuration observed at render time
differs from the one the resolver produced. -/
theorem c8_config_mutated_counterexample :
    cfgC8.y_axes = ["mag".toList] ∧
    (graphInit cfgC8 dpC8).1.y_axes = ["OriginalMag".toList] ∧
    (graphInit cfgC8 dpC8).1 ≠ cfgC8 := by
  refine ⟨rfl, rfl, ?_⟩
  decide

/-- C8 (amended): `Graph.__init__` rewrites exactly the `y_axes` field
through the rename mapping and leaves every other configuration field
unchanged; a configuration none of whose Y-axis names is in the mapping
is preserved whole (and the render stage only reads the configuration). -/
theorem c8_only_y_axes_mutated (cfg : GraphConfig) (dp : DataProcessor) :
    ((graphInit cfg dp).1.x_axis = cfg.x_axis ∧
     (graphInit cfg dp).1.x_min = cfg.x_min ∧
     (graphInit cfg dp).1.x_max = cfg.x_max ∧
     (graphInit cfg dp).1.y_min = cfg.y_min ∧
     (graphInit cfg dp).1.y_max = cfg.y_max ∧
     (graphInit cfg dp).1.comet_ids = cfg.comet_ids ∧
     (graphInit cfg dp).1.colors = cfg.colors ∧
     (graphInit cfg dp).1.shapes = cfg.shapes ∧
     (graphInit cfg dp).1.legend = cfg.legend ∧
     (graphInit cfg dp).1.dpi = cfg.dpi ∧
     (graphInit cfg dp).1.font_size = cfg.font_size ∧
     (graphInit cfg dp).1.output_file = cfg.output_file ∧
     (graphInit cfg dp).1.output_format = cfg.output_format ∧
     (graphInit cfg dp).1.interactive = cfg.interactive ∧
     (graphInit cfg dp).1.use_uncertainties = cfg.use_uncertainties ∧
     (graphInit cfg dp).1.delimiter = cfg.delimiter ∧
     (graphInit cfg dp).1.column_names = cfg.column_names ∧
     (graphInit cfg dp).1.x_axis_title = cfg.x_axis_title ∧
     (graphInit cfg dp).1.y_axis_title = cfg.y_axis_title ∧
     (graphInit cfg dp).1.style = cfg.style ∧
     (graphInit cfg dp).1.x_ticks = cfg.x_ticks ∧
     (graphInit cfg dp).1.y_ticks = cfg.y_ticks ∧
     (graphInit cfg dp).1.y_axes
        = cfg.y_axes.map (fun y => (lookupCN cfg.column_names y).getD y)) ∧
    ((∀ y ∈ cfg.y_axes, lookupCN cfg.column_names y = none) →
      (graphInit cfg dp).1 = cfg) := by
  constructor
  · exact ⟨rfl, rfl, rfl, rfl, rfl, rfl, rfl, rfl, rfl, rfl, rfl, rfl, rfl, rfl,
      rfl, rfl, rfl, rfl, rfl, rfl, rfl, rfl, rfl⟩
  · intro h
    have hmap : cfg.y_axes.map (fun y => (lookupCN cfg.column_names y).getD y)
        = cfg.y_axes := by
      conv_rhs => rw [← List.map_id cfg.y_axes]
      exact List.map_congr_left (fun y hy => by rw [h y hy]; rfl)
    show update_y_axes cfg = cfg
    unfold update_y_axes
    rw [hmap]

/-- Witness for the amended C8: a configuration whose Y axes are not in
the rename mapping passes through `Graph.__init__` unchanged. -/
theorem c8_only_y_axes_mutated_witness :
    (graphInit cfgC8w dpC8).1 = cfgC8w :=
  (c8_only_y_axes_mutated cfgC8w dpC8).2 (by decide)

/-! ## C1: YAML export/import round trip. -/

theorem splitOnChar_cons (sep c : Char) (cs : Str) :
    splitOnChar sep (c :: cs) =
      match splitOnChar sep cs with
      | [] => [[]]
      | g :: gs => if c = sep then [] :: g :: gs else (c :: g) :: gs := rfl

theorem splitOnChar_ne_nil (sep : Char) (s : Str) : splitOnChar sep s ≠ [] := by
  cases s with
  | nil => simp [splitOnChar]
  | cons c cs =>
    rw [splitOnChar_cons]
    cases h : splitOnChar sep cs with
    | nil => simp
    | cons g gs => by_cases hc : c = sep <;> simp [hc]

theorem splitOnChar_no_sep (sep : Char) (s : Str) (h : sep ∉ s) :
    splitOnChar sep s = [s] := by
  induction s with
  | nil => rfl
  | cons c cs ih =>
    have hc : ¬ (c = sep) := by
      intro e
      exact h (e ▸ List.mem_cons_self c cs)
    have h' : sep ∉ cs := fun m => h (List.mem_cons_of_mem _ m)
    rw [splitOnChar_cons, ih h']
    simp [hc]

theorem splitOnChar_sep_append (sep : Char) (a b : Str) (ha : sep ∉ a) :
    splitOnChar sep (a ++ sep :: b) = a :: splitOnChar sep b := by
  induction a with
  | nil =>
    cases hb : splitOnChar sep b with
    | nil => exact absurd hb (splitOnChar_ne_nil _ _)
    | cons g gs =>
      rw [List.nil_append, splitOnChar_cons, hb]
      simp
  | cons c cs ih =>
    have hc : ¬ (c = sep) := by
      intro e
      exact ha (e ▸ List.mem_cons_self c cs)
    have ha' : sep ∉ cs := fun m => ha (List.mem_cons_of_mem _ m)
    rw [List.cons_append, splitOnChar_cons, ih ha']
    simp [hc]

theorem dictInsert_fresh (acc : List (Str × Str)) (k v : Str)
    (h : acc.any (fun q => decide (q.1 = k)) = false) :
    dictInsert acc k v = acc ++ [(k, v)] := by
  simp [dictInsert, h, List.concat_eq_append]

theorem parse_format_roundtrip_aux (cn : List (Str × Str)) (acc : List (Str × Str))
    (hclean : cn.all cleanPair = true)
    (hfresh : ∀ p ∈ cn, acc.any (fun q => decide (q.1 = p.1)) = false)
    (hnodup : keysFresh cn = true) :
    parse_column_names_aux acc (cn.map (fun p => p.2 ++ '=' :: p.1))
      = .ok (acc ++ cn) := by
  induction cn generalizing acc with
  | nil => simp [parse_column_names_aux]
  | cons p rest ih =>
    simp only [List.all_cons, Bool.and_eq_true] at hclean
    obtain ⟨hp, hrest⟩ := hclean
    simp only [cleanPair, Bool.and_eq_true, decide_eq_true_eq] at hp
    obtain ⟨⟨⟨h1, h2⟩, h3⟩, h4⟩ := hp
    simp only [keysFresh, Bool.and_eq_true] at hnodup
    obtain ⟨hfr, hnd⟩ := hnodup
    have hfr' : rest.any (fun r => decide (r.1 = p.1)) = false := by
      cases hx : rest.any (fun r => decide (r.1 = p.1)) with
      | false => rfl
      | true => rw [hx] at hfr; exact absurd hfr (by decide)
    have hsplit : splitOnChar '=' (p.2 ++ '=' :: p.1) = [p.2, p.1] := by
      rw [splitOnChar_sep_append _ _ _ h2, splitOnChar_no_sep _ _ h1]
    have hfresh' : ∀ q ∈ rest,
        (acc ++ [(p.1, p.2)]).any (fun r => decide (r.1 = q.1)) = false := by
      intro q hq
      rw [List.any_append]
      have hA : acc.any (fun r => decide (r.1 = q.1)) = false :=
        hfresh q (List.mem_cons_of_mem _ hq)
      have hB : [(p.1, p.2)].any (fun r => decide (r.1 = q.1)) = false := by
        simp only [List.any_cons, List.any_nil, Bool.or_false,
          decide_eq_false_iff_not]
        intro e
        have := List.any_eq_false.mp hfr' q hq
        simp only [decide_eq_true_eq] at this
        exact this e.symm
      rw [hA, hB]
      rfl
    simp only [List.map_cons, parse_column_names_aux, hsplit]
    rw [h3, h4, dictInsert_fresh _ _ _ (hfresh p (List.mem_cons_self _ _)),
      ih (acc ++ [(p.1, p.2)]) hrest hfresh' hnd]
    simp

/-- C1: exporting a valid configuration and importing the produced YAML
mapping reconstructs the configuration on every field, hence
`export(import(export(cfg))) = export(cfg)`. -/
theorem c1_export_import_roundtrip (cfg : GraphConfig) (h : validCfg cfg = true) :
    importConfig (export_to_yaml cfg) = .ok cfg ∧
    ∀ cfg', importConfig (export_to_yaml cfg) = .ok cfg' →
      export_to_yaml cfg' = export_to_yaml cfg := by
  simp only [validCfg, Bool.and_eq_true] at h
  obtain ⟨⟨⟨hx, ho⟩, hall⟩, hfr⟩ := h
  have hparse : parse_column_names
      (cfg.column_names.map (fun p => p.2 ++ '=' :: p.1)) = .ok cfg.column_names := by
    have := parse_format_roundtrip_aux cfg.column_names [] hall
      (by intro p hp; rfl) hfr
    simpa [parse_column_names] using this
  have hxn : cfg.x_axis.isNone = false := by
    cases hc : cfg.x_axis with
    | none => rw [hc] at hx; exact absurd hx (by decide)
    | some v => rfl
  have hon : cfg.output_file.isNone = false := by
    cases hc : cfg.output_file with
    | none => rw [hc] at ho; exact absurd ho (by decide)
    | some v => rfl
  have himp : importConfig (export_to_yaml cfg) = .ok cfg := by
    unfold importConfig export_to_yaml
    dsimp only
    simp only [Option.getD_some]
    rw [hparse]
    simp only [hxn, hon, ho]
    rfl
  refine ⟨himp, fun cfg' h' => ?_⟩
  rw [himp] at h'
  have e : cfg = cfg' := (Except.ok.injEq _ _).mp h'
  rw [← e]

/-- Witness for C1 at a concrete valid configuration with a rename
mapping. -/
theorem c1_export_import_roundtrip_witness :
    importConfig (export_to_yaml cfgC1) = .ok cfgC1 :=
  (c1_export_import_roundtrip cfgC1 (by decide)).1

/-! ## C5, C6: loading, coercion and filtering. -/

theorem idxOfCol_spec (c : Str) (cols : List Str) (j : ℕ)
    (h : idxOfCol c cols = some j) : j < cols.length ∧ cols.getD j [] = c := by
  induction cols generalizing j with
  | nil => simp [idxOfCol] at h
  | cons c' r ih =>
    by_cases hc : c' = c
    · simp only [idxOfCol, if_pos hc, Option.some.injEq] at h
      subst h
      simpa using hc
    · simp only [idxOfCol, if_neg hc, Option.map_eq_some'] at h
      obtain ⟨k, hk, rfl⟩ := h
      obtain ⟨hlt, hget⟩ := ih k hk
      refine ⟨by simpa using Nat.succ_lt_succ hlt, ?_⟩
      simpa using hget

theorem numericCoerceRow_length (cols : List Str) (r : List Cell)
    (hr : r.length = cols.length) :
    (numericCoerceRow cols r).length = cols.length := by
  simp [numericCoerceRow, List.length_zip, hr]

theorem numericCoerceRow_getD (cols : List Str) (r : List Cell) (j : ℕ)
    (hr : r.length = cols.length) (hj : j < cols.length) :
    (numericCoerceRow cols r).getD j .na =
      (if cols.getD j [] = decDateCol ∨ cols.getD j [] = cometIdCol then r.getD j .na
       else fillZero (toNumericCell (r.getD j .na))) := by
  have hzl : (cols.zip r).length = cols.length := by
    simp [List.length_zip, hr]
  have hlen : (numericCoerceRow cols r).length = cols.length :=
    numericCoerceRow_length cols r hr
  rw [List.getD_eq_getElem _ _ (by omega : j < (numericCoerceRow cols r).length)]
  rw [List.getD_eq_getElem _ _ hj, List.getD_eq_getElem _ _ (by omega : j < r.length)]
  simp only [numericCoerceRow]
  rw [List.getElem_map]
  rw [List.getElem_zip]

theorem load_data_core_none (t : Table) (hd : t.colIdx decDateCol = none) :
    load_data_core none t =
      .ok ({ t with rows := t.rows.map (numericCoerceRow t.cols) }, none,
        (t.rows.map (numericCoerceRow t.cols)).isEmpty) := by
  unfold load_data_core
  rw [hd]
  rfl

/-- C5: with no custom-date column, loading always succeeds, and every
cell of every column other than `dec. Date` and `Comet ID` is the
numeric coercion of the input cell with uncoercible values replaced by
zero; no load error is raised for an uncoercible individual value. -/
theorem c5_numeric_coercion (t : Table) (hd : t.colIdx decDateCol = none)
    (hw : ∀ r ∈ t.rows, r.length = t.cols.length) :
    load_data none t =
      .ok ({ t with rows := t.rows.map (numericCoerceRow t.cols) }, none,
        (t.rows.map (numericCoerceRow t.cols)).isEmpty) ∧
    ∀ i j, i < t.rows.length → j < t.cols.length →
      t.cols.getD j [] ≠ decDateCol → t.cols.getD j [] ≠ cometIdCol →
      Table.cellAt { t with rows := t.rows.map (numericCoerceRow t.cols) } i j
        = fillZero (toNumericCell (t.cellAt i j)) := by
  constructor
  · unfold load_data
    rw [load_data_core_none t hd]
  · intro i j hi hj h1 h2
    have hrl : (t.rows.map (numericCoerceRow t.cols)).length = t.rows.length :=
      List.length_map _ _
    unfold Table.cellAt
    rw [List.getD_eq_getElem _ _ (by omega : i < (t.rows.map (numericCoerceRow t.cols)).length)]
    rw [List.getElem_map]
    rw [numericCoerceRow_getD t.cols _ j
      (hw _ (List.getElem_mem (by omega : i < t.rows.length))) hj]
    rw [if_neg (by tauto)]
    rw [List.getD_eq_getElem _ _ (by omega : i < t.rows.length)]

/-- Witness for C5: a table with an uncoercible string and a missing
value; both become zero and the load succeeds. -/
theorem c5_numeric_coercion_witness :
    (load_data none tblC5 =
      .ok ({ tblC5 with rows := tblC5.rows.map (numericCoerceRow tblC5.cols) }, none,
        (tblC5.rows.map (numericCoerceRow tblC5.cols)).isEmpty) ∧
    ∀ i j, i < tblC5.rows.length → j < tblC5.cols.length →
      tblC5.cols.getD j [] ≠ decDateCol → tblC5.cols.getD j [] ≠ cometIdCol →
      Table.cellAt { tblC5 with rows := tblC5.rows.map (numericCoerceRow tblC5.cols) } i j
        = fillZero (toNumericCell (tblC5.cellAt i j))) ∧
    Table.cellAt { tblC5 with rows := tblC5.rows.map (numericCoerceRow tblC5.cols) } 0 1
      = .num 0 ∧
    Table.cellAt { tblC5 with rows := tblC5.rows.map (numericCoerceRow tblC5.cols) } 1 0
      = .num 0 :=
  ⟨c5_numeric_coercion tblC5 rfl (by decide), by decide, by decide⟩

theorem getD_set_self (l : List Cell) (jj : ℕ) (a d : Cell) (h : jj < l.length) :
    (l.set jj a).getD jj d = a := by
  rw [List.getD_eq_getElem _ _ (by simpa using h)]
  exact List.getElem_set_self (by simpa using h)

theorem load_data_core_filter (t : Table) (ids : List Str) (j : ℕ)
    (hne : ids ≠ []) (hd : t.colIdx decDateCol = none)
    (hj : t.colIdx cometIdCol = some j) :
    load_data_core (some ids) t =
      (let rows2 :=
        ((t.rows.map (numericCoerceRow t.cols)).map
          (fun r => r.set j (Cell.str (pyStrip (cellToStr (r.getD j Cell.na)))))).filter
          (fun r => match r.getD j Cell.na with
            | Cell.str s => decide (s ∈ ids.map pyStrip)
            | _ => false);
      Except.ok ({ cols := t.cols, rows := rows2 }, some (ids.map pyStrip),
        rows2.isEmpty)) := by
  unfold load_data_core
  rw [hd]
  cases ids with
  | nil => exact absurd rfl hne
  | cons a as =>
    simp only [Table.colIdx] at hj
    simp only [List.isEmpty_cons, Table.colIdx, pure_bind]
    rw [hj]
    rfl

/-- C6 counterexample: a supplied empty filter list is falsy in
`if self.comet_ids:`, so filtering is skipped entirely; the row is kept
even though its trimmed identifier is a member of no trimmed filter
key (the claim's iff predicts it would be dropped). -/
theorem c6_empty_filter_counterexample :
    load_data (some []) tblC6 = .ok (tblC6, some [], false) ∧
    tblC6.rows.length = 1 ∧
    (tblC6.rows.getD 0 []).getD 2 .na = .str ("A".toList) ∧
    (([] : List Str).map pyStrip).contains (pyStrip ("A".toList)) = false :=
  ⟨rfl, rfl, rfl, rfl⟩

/-- C6 (amended): for every supplied NON-empty filter list, a row is
kept iff its whitespace-trimmed identifier equals, case-preservingly,
some whitespace-trimmed filter key; kept rows store the trimmed
identifier and the processor's filter list is replaced by the stripped
keys.  (A supplied empty list disables filtering, see the
counterexample.) -/
theorem c6_filter_membership (t : Table) (ids : List Str) (j : ℕ)
    (hne : ids ≠ []) (hd : t.colIdx decDateCol = none)
    (hj : t.colIdx cometIdCol = some j)
    (hw : ∀ r ∈ t.rows, r.length = t.cols.length) :
    load_data (some ids) t =
      (let keep := t.rows.filter (fun r =>
        decide (pyStrip (cellToStr (r.getD j Cell.na)) ∈ ids.map pyStrip));
      let rows2 := keep.map (fun r => (numericCoerceRow t.cols r).set j
        (Cell.str (pyStrip (cellToStr (r.getD j Cell.na)))));
      Except.ok ({ cols := t.cols, rows := rows2 },
        some (ids.map pyStrip), rows2.isEmpty)) := by
  obtain ⟨hjl, hjc⟩ := idxOfCol_spec _ _ _ hj
  unfold load_data
  rw [load_data_core_filter t ids j hne hd hj]
  have e1 : ∀ r ∈ t.rows,
      (numericCoerceRow t.cols r).getD j Cell.na = r.getD j Cell.na := by
    intro r hr
    rw [numericCoerceRow_getD _ _ _ (hw r hr) hjl, if_pos (Or.inr hjc)]
  have key : ((t.rows.map (numericCoerceRow t.cols)).map
      (fun r => r.set j (Cell.str (pyStrip (cellToStr (r.getD j Cell.na)))))).filter
      (fun r => match r.getD j Cell.na with
        | Cell.str s => decide (s ∈ ids.map pyStrip)
        | _ => false)
    = (t.rows.filter (fun r =>
        decide (pyStrip (cellToStr (r.getD j Cell.na)) ∈ ids.map pyStrip))).map
        (fun r => (numericCoerceRow t.cols r).set j
          (Cell.str (pyStrip (cellToStr (r.getD j Cell.na))))) := by
    rw [List.map_map, List.filter_map]
    have hpeq : ∀ r ∈ t.rows,
        ((fun r => match r.getD j Cell.na with
          | Cell.str s => decide (s ∈ ids.map pyStrip)
          | _ => false) ∘
         ((fun r => r.set j (Cell.str (pyStrip (cellToStr (r.getD j Cell.na))))) ∘
          numericCoerceRow t.cols)) r
        = decide (pyStrip (cellToStr (r.getD j Cell.na)) ∈ ids.map pyStrip) := by
      intro r hr
      have hlen : j < (numericCoerceRow t.cols r).length := by
        rw [numericCoerceRow_length _ _ (hw r hr)]
        exact hjl
      simp only [Function.comp]
      rw [getD_set_self _ _ _ _ hlen, e1 r hr]
    rw [List.filter_congr hpeq]
    refine List.map_congr_left ?_
    intro r hr
    have hrm : r ∈ t.rows := (List.mem_filter.mp hr).1
    simp only [Function.comp]
    rw [e1 r hrm]
  rw [key]

/-- Witness for the amended C6: one matching row (whitespace around the
identifier) kept and trimmed, one non-matching row dropped. -/
theorem c6_filter_membership_witness :
    load_data (some ["A".toList]) tblC6w =
      .ok ({ cols := tblC6w.cols, rows := [[Cell.num 1, Cell.str ("A".toList)]] },
        some ["A".toList], false) := by
  rw [c6_filter_membership tblC6w ["A".toList] 1 (by decide) rfl rfl (by decide)]
  rfl

/-! ## The trace monad, unfolded. -/

theorem tbind_ok {α β : Type} {m : TraceM α} {es : List Ev} {a : α}
    (h : m = (es, Except.ok a)) (f : α → TraceM β) :
    m >>= f = (es ++ (f a).1, (f a).2) := by
  subst h
  rfl

theorem tbind_err {α β : Type} {m : TraceM α} {es : List Ev} {e : PyErr}
    (h : m = (es, Except.error e)) (f : α → TraceM β) :
    m >>= f = (es, Except.error e) := by
  subst h
  rfl

theorem tpure_eq {α : Type} (a : α) : (pure a : TraceM α) = ([], .ok a) := rfl

theorem temit_eq (e : Ev) : emit e = ([e], .ok ()) := rfl

theorem tthrow_eq {α : Type} (e : PyErr) : (throwT e : TraceM α) = ([], .error e) := rfl

theorem getColIdx_some (t : Table) (c : Str) (j : ℕ) (h : t.colIdx c = some j) :
    getColIdx t c = ([], .ok j) := by
  unfold getColIdx
  rw [h]
  rfl

theorem cycIdx_cons (x : Str) (r : List Str) (j : ℕ) :
    cycIdx (x :: r) j = ([], .ok ((x :: r).getD (j % (x :: r).length) [])) := rfl

theorem cycIdx_nil (j : ℕ) : cycIdx [] j = ([], .error .zeroDivision) := rfl


theorem fst_bind {α β : Type} (m : TraceM α) (f : α → TraceM β) :
    (m >>= f).1 = m.1 ++ (match m.2 with
      | .ok a => (f a).1
      | .error _ => []) := by
  cases m with
  | mk es r =>
    cases r with
    | ok a => rfl
    | error e => exact (List.append_nil es).symm

theorem snd_bind {α β : Type} (m : TraceM α) (f : α → TraceM β) :
    (m >>= f).2 = (match m.2 with
      | .ok a => (f a).2
      | .error e => .error e) := by
  cases m with
  | mk es r => cases r <;> rfl

theorem emit_fst (e : Ev) : (emit e).1 = [e] := rfl

theorem emit_snd (e : Ev) : (emit e).2 = .ok () := rfl

theorem pure_fst {α : Type} (a : α) : (pure a : TraceM α).1 = [] := rfl

theorem pure_snd {α : Type} (a : α) : (pure a : TraceM α).2 = .ok a := rfl

theorem throwT_fst {α : Type} (e : PyErr) : (throwT e : TraceM α).1 = [] := rfl

theorem throwT_snd {α : Type} (e : PyErr) : (throwT e : TraceM α).2 = .error e := rfl

/-! ## C3: zero-magnitude tick step. -/

/-- Shared run equation: when the derived y-tick step has magnitude
below `1e-6`, the static render aborts with the `ValueError` right
after labels and legend — after the whole plotting loop, before the
tick and `savefig` calls. -/
theorem render_static_small_ystep_run (cfg : GraphConfig) (dp : DataProcessor)
    (xa : Str) (jx : ℕ) (yTr : List Ev) (k : ℤ) (a b : ℚ)
    (hxa : cfg.x_axis = some xa) (hjx : dp.data.colIdx xa = some jx)
    (hy : yLoop cfg dp jx cfg.y_axes = (yTr, .ok ()))
    (hxt : cfg.x_ticks = none)
    (hyt : cfg.y_ticks = some k) (hk : ¬ (k = 0))
    (hymin : cfg.y_min = some a) (hymax : cfg.y_max = some b)
    (hsmall : pyAbs ((b - a) / (k : ℚ)) < 1 / 1000000) :
    render_static cfg dp =
      ([Ev.styleUse cfg.style, Ev.figure cfg.dpi] ++ yTr ++
        [Ev.xlabel cfg.x_axis_title, Ev.ylabel cfg.y_axis_title] ++
        (if cfg.legend then [Ev.legendCall] else []),
       Except.error
         (.valueError "y_step is too small. Adjust y_max, y_min, or y_ticks.")) := by
  have hgc : getColIdx dp.data xa = ([], .ok jx) := getColIdx_some _ _ _ hjx
  refine Prod.ext ?_ ?_
  · simp only [render_static, fst_bind, snd_bind, hxa, hgc, hy, hxt, hyt, hymin,
      hymax, emit_fst, emit_snd, pure_fst, pure_snd, throwT_fst, throwT_snd,
      hsmall, hk, if_true, if_false, ite_true, ite_false]
    cases hleg : cfg.legend <;>
      simp [List.append_assoc, pure_fst, pure_snd, emit_fst, emit_snd, throwT_fst]
  · simp only [render_static, snd_bind, hxa, hgc, hy, hxt, hyt, hymin,
      hymax, emit_snd, pure_snd, throwT_snd, hsmall, hk, if_true, if_false,
      ite_true, ite_false]
    cases hleg : cfg.legend <;>
      simp [pure_fst, pure_snd, emit_fst, emit_snd, throwT_snd]

/-- The concrete plotting-loop trace of the C3 counterexample run. -/
def yTrC3 : List Ev :=
  [Ev.scatter [Cell.num 1] [Cell.num 2] ("b".toList) ("o".toList) ("A".toList)]

/-- C3 counterexample: with a zero y-tick step the static renderer does
raise the `ValueError`, but only during axis finalization: the trace
already contains a drawing call (a scatter) when the error is raised,
refuting "raised before any drawing call is made". -/
theorem c3_tick_step_after_drawing_counterexample :
    (render_static cfgC3 dpC3).2 =
      .error (.valueError "y_step is too small. Adjust y_max, y_min, or y_ticks.") ∧
    (render_static cfgC3 dpC3).1.filter isDrawEv ≠ [] := by
  have hy : yLoop cfgC3 dpC3 0 cfgC3.y_axes = (yTrC3, .ok ()) := by rfl
  have hrun := render_static_small_ystep_run cfgC3 dpC3 colX 0 yTrC3 1 0 0
    rfl rfl hy rfl rfl (by decide) rfl rfl (by norm_num [pyAbs])
  rw [hrun]
  constructor
  · rfl
  · decide

/-- C3 (amended): a y-tick step of magnitude below `1e-6` raises the
`ValueError` naming the tick fields, and the run aborts during axis
finalization: the tick positions and the output file are never produced
(the error precedes `savefig`), though it comes after the per-series
drawing loop, not before it (see the counterexample). -/
theorem c3_small_ystep_raises (cfg : GraphConfig) (dp : DataProcessor)
    (xa : Str) (jx : ℕ) (yTr : List Ev) (k : ℤ) (a b : ℚ)
    (hxa : cfg.x_axis = some xa) (hjx : dp.data.colIdx xa = some jx)
    (hy : yLoop cfg dp jx cfg.y_axes = (yTr, .ok ()))
    (hysave : ∀ f fmt, Ev.savefig f fmt ∉ yTr)
    (hxt : cfg.x_ticks = none)
    (hyt : cfg.y_ticks = some k) (hk : ¬ (k = 0))
    (hymin : cfg.y_min = some a) (hymax : cfg.y_max = some b)
    (hsmall : pyAbs ((b - a) / (k : ℚ)) < 1 / 1000000) :
    (render_static cfg dp).2 =
      .error (.valueError "y_step is too small. Adjust y_max, y_min, or y_ticks.") ∧
    ∀ f fmt, Ev.savefig f fmt ∉ (render_static cfg dp).1 := by
  have hrun := render_static_small_ystep_run cfg dp xa jx yTr k a b
    hxa hjx hy hxt hyt hk hymin hymax hsmall
  rw [hrun]
  refine ⟨rfl, ?_⟩
  intro f fmt hmem
  rcases Bool.eq_false_or_eq_true cfg.legend with hleg | hleg <;>
    rw [hleg] at hmem <;> simp at hmem <;> exact hysave f fmt hmem

/-- Witness for the amended C3: an empty-Y-axes run whose tick step is
zero: the error is raised and no output file call appears. -/
theorem c3_small_ystep_raises_witness :
    (render_static cfgC3w dpC3).2 =
      .error (.valueError "y_step is too small. Adjust y_max, y_min, or y_ticks.") ∧
    ∀ f fmt, Ev.savefig f fmt ∉ (render_static cfgC3w dpC3).1 :=
  c3_small_ystep_raises cfgC3w dpC3 colX 0 [] 3 1 1
    rfl rfl (by rfl) (by intro f fmt h; simp at h) rfl rfl (by decide) rfl rfl
    (by norm_num [pyAbs])

/-! ## C10: empty palettes. -/

theorem cometLoop_palette_error (cfg : GraphConfig) (t : Table) (ya : Str)
    (rows2 : List (List Cell)) (jx jy : ℕ) (de : Bool) (j : ℕ)
    (cid : Str) (ids : List Str) (ji : ℕ)
    (hji : t.colIdx cometIdCol = some ji)
    (hcs : cfg.colors = [] ∨ cfg.shapes = []) :
    (cometLoop cfg t ya rows2 jx jy de j (cid :: ids)).2 = .error .zeroDivision := by
  have hgc : getColIdx t cometIdCol = ([], .ok ji) := getColIdx_some _ _ _ hji
  rcases hcs with h | h
  · simp only [cometLoop, snd_bind, hgc, h, cycIdx_nil, pure_snd, throwT_snd,
      emit_snd]
  · cases hc : cfg.colors with
    | nil =>
      simp only [cometLoop, snd_bind, hgc, hc, cycIdx_nil, pure_snd, throwT_snd,
        emit_snd]
    | cons c cs =>
      simp only [cometLoop, snd_bind, hgc, hc, h, cycIdx_cons, cycIdx_nil,
        pure_snd, throwT_snd, emit_snd]

theorem interYLoop_palette_error (cfg : GraphConfig) (t : Table)
    (xCur : List (ℕ × Cell)) (i : ℕ) (ya : Str) (yas : List Str) (jy : ℕ)
    (hjy : t.colIdx (pyStrip ya) = some jy)
    (hcs : cfg.shapes = [] ∨ cfg.colors = []) :
    (interYLoop cfg t false xCur i (ya :: yas)).2 = .error .zeroDivision := by
  have hgc : getColIdx t (pyStrip ya) = ([], .ok jy) := getColIdx_some _ _ _ hjy
  rcases hcs with h | h
  · simp only [interYLoop, snd_bind, hgc, h, cycIdx_nil, pure_snd, throwT_snd,
      emit_snd, Bool.false_eq_true, if_false]
  · cases hs : cfg.shapes with
    | nil =>
      simp only [interYLoop, snd_bind, hgc, hs, cycIdx_nil, pure_snd, throwT_snd,
        emit_snd, Bool.false_eq_true, if_false]
    | cons s0 ss =>
      simp only [interYLoop, snd_bind, hgc, hs, h, cycIdx_cons, cycIdx_nil,
        pure_snd, throwT_snd, emit_snd, Bool.false_eq_true, if_false]

/-- C10 counterexample: with both palettes empty (the default) and a
non-empty table, rendering succeeds in both modes when `y_axes` is
empty, because no palette-indexing iteration is ever reached — refuting
"for every non-empty table rendering fails with a division-by-zero". -/
theorem c10_empty_palette_counterexample :
    cfgC10.colors = [] ∧ cfgC10.shapes = [] ∧ dpC10.data.rows ≠ [] ∧
    (render_static cfgC10 dpC10).2 = .ok () ∧
    (render_interactive cfgC10 dpC10).2 = .ok () := by
  refine ⟨rfl, rfl, by decide, by decide, by decide⟩

/-- C10 (amended): with an empty color or marker palette, rendering
fails with `ZeroDivisionError` at the cyclic palette index as soon as a
series-drawing iteration is reached: in static mode this needs a
non-empty `y_axes`, a supplied non-empty filter list and the referenced
columns present; in interactive mode a non-empty `y_axes`, the
referenced columns and no `delta T` column (the `delta T` per-point
branch indexes `shapes[0]` directly, raising `IndexError` instead). -/
theorem c10_empty_palette_div_zero :
    (∀ (cfg : GraphConfig) (dp : DataProcessor) (xa : Str) (jx : ℕ) (ya : Str)
       (yas : List Str) (jy jid : ℕ) (cid : Str) (ids : List Str),
      cfg.y_axes = ya :: yas → cfg.x_axis = some xa →
      dp.data.colIdx xa = some jx → dp.data.colIdx (pyStrip ya) = some jy →
      dp.data.colIdx cometIdCol = some jid → dp.comet_ids = some (cid :: ids) →
      (cfg.colors = [] ∨ cfg.shapes = []) →
      (render_static cfg dp).2 = .error .zeroDivision) ∧
    (∀ (cfg : GraphConfig) (dp : DataProcessor) (xa : Str) (jx : ℕ) (ya : Str)
       (yas : List Str) (jy : ℕ),
      cfg.y_axes = ya :: yas → cfg.x_axis = some xa →
      dp.data.colIdx xa = some jx → dp.data.colIdx (pyStrip ya) = some jy →
      hasColumn dp.data deltaTCol = false →
      (cfg.shapes = [] ∨ cfg.colors = []) →
      (render_interactive cfg dp).2 = .error .zeroDivision) := by
  constructor
  · intro cfg dp xa jx ya yas jy jid cid ids hya hxa hjx hjy hjid hcid hcs
    have hgx : getColIdx dp.data xa = ([], .ok jx) := getColIdx_some _ _ _ hjx
    have hgy : getColIdx dp.data (pyStrip ya) = ([], .ok jy) :=
      getColIdx_some _ _ _ hjy
    have hcomet : ∀ rows2 de j,
        (cometLoop cfg dp.data (pyStrip ya) rows2 jx jy de j (cid :: ids)).2
          = .error .zeroDivision :=
      fun rows2 de j =>
        cometLoop_palette_error cfg dp.data (pyStrip ya) rows2 jx jy de j cid
          ids jid hjid hcs
    have hyl : (yLoop cfg dp jx (ya :: yas)).2 = .error .zeroDivision := by
      simp only [yLoop, snd_bind, hgy, hcid, hcomet, pure_snd, throwT_snd]
    simp only [render_static, snd_bind, hya, hxa, hgx, hyl, emit_snd, pure_snd]
  · intro cfg dp xa jx ya yas jy hya hxa hjx hjy hde hcs
    have hgx : getColIdx dp.data xa = ([], .ok jx) := getColIdx_some _ _ _ hjx
    have hil := interYLoop_palette_error cfg dp.data (colIndexed dp.data jx) 0
      ya yas jy hjy hcs
    simp only [render_interactive, snd_bind, hya, hxa, hgx, hde, hil, emit_snd,
      pure_snd]

/-- Witness for the amended C10, in both modes, on a one-row table. -/
theorem c10_empty_palette_div_zero_witness :
    (render_static cfgC10s dpC10).2 = .error .zeroDivision ∧
    (render_interactive cfgC10i dpC10).2 = .error .zeroDivision :=
  ⟨c10_empty_palette_div_zero.1 cfgC10s dpC10 colX 0 colY [] 1 2 ("A".toList) []
      rfl rfl (by decide) (by decide) (by decide) rfl (Or.inl rfl),
   c10_empty_palette_div_zero.2 cfgC10i dpC10 colX 0 colY [] 1
      rfl rfl (by decide) (by decide) (by decide) (Or.inl rfl)⟩

/-! ## C9: the series the static renderer produces. -/

theorem cometLoop_run (cfg : GraphConfig) (t : Table) (ya : Str)
    (rows2 : List (List Cell)) (jx jy jid : ℕ)
    (hjid : t.colIdx cometIdCol = some jid)
    (hu : cfg.use_uncertainties = false)
    (hc : cfg.colors ≠ []) (hs : cfg.shapes ≠ []) :
    ∀ ids j, cometLoop cfg t ya rows2 jx jy false j ids =
      (cometScatters rows2 jx jy jid cfg.colors cfg.shapes j ids, .ok ()) := by
  have hgc : getColIdx t cometIdCol = ([], .ok jid) := getColIdx_some _ _ _ hjid
  obtain ⟨c, cs, hcol⟩ : ∃ c cs, cfg.colors = c :: cs := by
    cases hx : cfg.colors with
    | nil => exact absurd hx hc
    | cons c cs => exact ⟨c, cs, rfl⟩
  obtain ⟨s0, ss, hshp⟩ : ∃ s0 ss, cfg.shapes = s0 :: ss := by
    cases hx : cfg.shapes with
    | nil => exact absurd hx hs
    | cons s0 ss => exact ⟨s0, ss, rfl⟩
  intro ids
  induction ids with
  | nil => intro j; rfl
  | cons cid rest ih =>
    intro j
    refine Prod.ext ?_ ?_
    · simp only [cometLoop, fst_bind, snd_bind, hgc, hu, hcol, hshp, cycIdx_cons,
        emit_fst, emit_snd, pure_fst, pure_snd, Bool.false_eq_true, if_false,
        ite_false, ih, cometScatters]
      simp
    · simp only [cometLoop, snd_bind, hgc, hu, hcol, hshp, cycIdx_cons,
        emit_snd, pure_snd, Bool.false_eq_true, if_false, ite_false, ih]

theorem cometScatters_eq_spec (t : Table) (jx jy jid : ℕ)
    (colors shapes : List Str) :
    ∀ ids j, cometScatters
      ((t.rows.filter (fun r => !(isNa (r.getD jy .na)))).filter
        (fun r => cellNeZero (r.getD jy .na) && !(isNa (r.getD jy .na))))
      jx jy jid colors shapes j ids
      = idsScatterSpec t jx jy jid colors shapes j ids := by
  intro ids
  induction ids with
  | nil => intro j; rfl
  | cons cid rest ih =>
    intro j
    have hfe : ((t.rows.filter (fun r => !(isNa (r.getD jy .na)))).filter
        (fun r => cellNeZero (r.getD jy .na) && !(isNa (r.getD jy .na)))).filter
        (fun r => cellEqStr (r.getD jid .na) cid)
      = t.rows.filter (fun r =>
          (!(isNa (r.getD jy .na))) && cellNeZero (r.getD jy .na) &&
          cellEqStr (r.getD jid .na) cid) := by
      rw [List.filter_filter, List.filter_filter]
      refine List.filter_congr ?_
      intro r _
      cases isNa (r.getD jy Cell.na) <;>
        cases cellNeZero (r.getD jy Cell.na) <;>
        cases cellEqStr (r.getD jid Cell.na) cid <;> rfl
    simp only [cometScatters, idsScatterSpec, ih, mapperSeries, hfe]

theorem yLoop_run (cfg : GraphConfig) (dp : DataProcessor) (jx jid : ℕ)
    (ids : List Str)
    (hcid : dp.comet_ids = some ids)
    (hjid : dp.data.colIdx cometIdCol = some jid)
    (hu : cfg.use_uncertainties = false)
    (hde : hasColumn dp.data deltaTCol = false)
    (hc : cfg.colors ≠ []) (hs : cfg.shapes ≠ []) :
    ∀ yas, (∀ ya ∈ yas, (dp.data.colIdx (pyStrip ya)).isSome = true) →
      yLoop cfg dp jx yas =
        (staticSeriesSpec dp.data jx jid cfg.colors cfg.shapes ids yas, .ok ()) := by
  intro yas
  induction yas with
  | nil => intro _; rfl
  | cons ya rest ih =>
    intro h
    obtain ⟨jy, hjy⟩ : ∃ jy, dp.data.colIdx (pyStrip ya) = some jy := by
      have hsome := h ya (List.mem_cons_self _ _)
      cases hx : dp.data.colIdx (pyStrip ya) with
      | none => rw [hx] at hsome; exact absurd hsome (by decide)
      | some jy => exact ⟨jy, rfl⟩
    have hgy : getColIdx dp.data (pyStrip ya) = ([], .ok jy) :=
      getColIdx_some _ _ _ hjy
    have hcl : ∀ rows2 j,
        cometLoop cfg dp.data (pyStrip ya) rows2 jx jy false j ids
          = (cometScatters rows2 jx jy jid cfg.colors cfg.shapes j ids, .ok ()) :=
      fun rows2 j =>
        cometLoop_run cfg dp.data (pyStrip ya) rows2 jx jy jid hjid hu hc hs ids j
    have ih' := ih (fun y hy => h y (List.mem_cons_of_mem _ hy))
    refine Prod.ext ?_ ?_
    · simp only [yLoop, fst_bind, snd_bind, hgy, hcid, hde, hcl, pure_fst,
        pure_snd, ih', staticSeriesSpec, hjy, Option.getD_some,
        cometScatters_eq_spec]
      simp
    · simp only [yLoop, snd_bind, hgy, hcid, hde, hcl, pure_snd, ih']

theorem render_static_run_ok (cfg : GraphConfig) (dp : DataProcessor)
    (xa : Str) (jx jid : ℕ) (ids : List Str) (f : Str)
    (hxa : cfg.x_axis = some xa) (hjx : dp.data.colIdx xa = some jx)
    (hcid : dp.comet_ids = some ids)
    (hjid : dp.data.colIdx cometIdCol = some jid)
    (hu : cfg.use_uncertainties = false)
    (hde : hasColumn dp.data deltaTCol = false)
    (hc : cfg.colors ≠ []) (hs : cfg.shapes ≠ [])
    (hys : ∀ ya ∈ cfg.y_axes, (dp.data.colIdx (pyStrip ya)).isSome = true)
    (hxt : cfg.x_ticks = none) (hyt : cfg.y_ticks = none)
    (hof : cfg.output_file = some f) :
    render_static cfg dp =
      ([Ev.styleUse cfg.style, Ev.figure cfg.dpi] ++
        staticSeriesSpec dp.data jx jid cfg.colors cfg.shapes ids cfg.y_axes ++
        [Ev.xlabel cfg.x_axis_title, Ev.ylabel cfg.y_axis_title] ++
        (if cfg.legend then [Ev.legendCall] else []) ++
        [Ev.savefig f cfg.output_format], .ok ()) := by
  have hgx : getColIdx dp.data xa = ([], .ok jx) := getColIdx_some _ _ _ hjx
  have hyl := yLoop_run cfg dp jx jid ids hcid hjid hu hde hc hs cfg.y_axes hys
  refine Prod.ext ?_ ?_
  · simp only [render_static, fst_bind, snd_bind, hxa, hgx, hyl, hxt, hyt, hof,
      emit_fst, emit_snd, pure_fst, pure_snd]
    cases hleg : cfg.legend <;>
      simp [pure_fst, pure_snd, emit_fst, emit_snd, List.append_assoc]
  · simp only [render_static, snd_bind, hxa, hgx, hyl, hxt, hyt, hof,
      emit_snd, pure_snd]
    cases hleg : cfg.legend <;> simp [pure_snd, emit_snd]

theorem scatterEvs_idsScatterSpec (t : Table) (jx jy jid : ℕ)
    (colors shapes : List Str) :
    ∀ ids j, scatterEvs (idsScatterSpec t jx jy jid colors shapes j ids)
      = idsScatterSpec t jx jy jid colors shapes j ids := by
  intro ids
  induction ids with
  | nil => intro j; rfl
  | cons cid rest ih =>
    intro j
    simp only [idsScatterSpec, scatterEvs, List.filter_cons]
    simp only [scatterEvs] at ih
    rw [ih]
    simp

theorem scatterEvs_staticSeriesSpec (t : Table) (jx jid : ℕ)
    (colors shapes : List Str) (ids : List Str) :
    ∀ yas, scatterEvs (staticSeriesSpec t jx jid colors shapes ids yas)
      = staticSeriesSpec t jx jid colors shapes ids yas := by
  intro yas
  induction yas with
  | nil => rfl
  | cons ya rest ih =>
    simp only [staticSeriesSpec, scatterEvs, List.filter_append]
    simp only [scatterEvs] at ih
    rw [ih]
    have h2 := scatterEvs_idsScatterSpec t jx ((t.colIdx (pyStrip ya)).getD 0)
      jid colors shapes ids 0
    simp only [scatterEvs] at h2
    rw [h2]

/-- C9 counterexample: the static renderer iterates the SUPPLIED filter
list, not the identifiers present in the table: with no filter list
supplied (`comet_ids = None`) it raises `TypeError` from
`enumerate(None)` instead of producing any series, although the table
has rows, an identifier column and a y column. -/
theorem c9_no_filter_list_counterexample :
    dpC9.comet_ids = none ∧
    dpC9.data.rows ≠ [] ∧
    (dpC9.data.colIdx cometIdCol).isSome = true ∧
    (render_static cfgBase dpC9).2 =
      .error (.typeError "argument of type NoneType is not iterable") := by
  refine ⟨rfl, by decide, rfl, by decide⟩

/-- C9 (amended): for every loaded table and configuration with a
supplied filter list (required — see the counterexample), sane palettes
and columns, no `delta T` column and uncertainty bands off, the static
renderer succeeds and its scatter events are exactly, for each Y-axis
column (outer) and each identifier of the filter list (inner), the
series of (X, Y) arrays from which rows whose Y value is missing or
zero are excluded. -/
theorem c9_series_per_filter_id (cfg : GraphConfig) (dp : DataProcessor)
    (xa : Str) (jx jid : ℕ) (ids : List Str) (f : Str)
    (hxa : cfg.x_axis = some xa) (hjx : dp.data.colIdx xa = some jx)
    (hcid : dp.comet_ids = some ids)
    (hjid : dp.data.colIdx cometIdCol = some jid)
    (hu : cfg.use_uncertainties = false)
    (hde : hasColumn dp.data deltaTCol = false)
    (hc : cfg.colors ≠ []) (hs : cfg.shapes ≠ [])
    (hys : ∀ ya ∈ cfg.y_axes, (dp.data.colIdx (pyStrip ya)).isSome = true)
    (hxt : cfg.x_ticks = none) (hyt : cfg.y_ticks = none)
    (hof : cfg.output_file = some f) :
    (render_static cfg dp).2 = .ok () ∧
    scatterEvs (render_static cfg dp).1 =
      staticSeriesSpec dp.data jx jid cfg.colors cfg.shapes ids cfg.y_axes := by
  have hrun := render_static_run_ok cfg dp xa jx jid ids f hxa hjx hcid hjid hu
    hde hc hs hys hxt hyt hof
  rw [hrun]
  refine ⟨rfl, ?_⟩
  have hspec := scatterEvs_staticSeriesSpec dp.data jx jid cfg.colors cfg.shapes
    ids cfg.y_axes
  simp only [scatterEvs, List.filter_append, List.filter_cons] at hspec ⊢
  rw [hspec]
  rcases Bool.eq_false_or_eq_true cfg.legend with hleg | hleg <;> rw [hleg] <;> simp

/-- Witness for the amended C9 on a three-row table (one zero-valued row
is excluded, series follow the filter list `["A", "B"]`). -/
theorem c9_series_per_filter_id_witness :
    (render_static cfgBase dpC9w).2 = .ok () ∧
    scatterEvs (render_static cfgBase dpC9w).1 =
      staticSeriesSpec dpC9w.data 0 2 cfgBase.colors cfgBase.shapes
        ["A".toList, "B".toList] cfgBase.y_axes :=
  c9_series_per_filter_id cfgBase dpC9w colX 0 2 ["A".toList, "B".toList]
    ("out.png".toList) rfl (by decide) rfl (by decide) rfl (by decide)
    (by decide) (by decide) (by decide) rfl rfl rfl

/-! ## C7: an all-filtered table still renders an empty artifact. -/

theorem idsScatterSpec_empty (t : Table) (jx jy jid : ℕ)
    (colors shapes : List Str) (ht : t.rows = []) :
    ∀ ids j, ∀ e ∈ idsScatterSpec t jx jy jid colors shapes j ids,
      emptySeriesEv e = true := by
  intro ids
  induction ids with
  | nil => intro j e he; exact absurd he (List.not_mem_nil _)
  | cons cid rest ih =>
    intro j e he
    rcases List.mem_cons.mp he with h | h
    · subst h
      simp [emptySeriesEv, mapperSeries, ht]
    · exact ih (j + 1) e h

theorem staticSeriesSpec_empty (t : Table) (jx jid : ℕ)
    (colors shapes : List Str) (ids : List Str) (ht : t.rows = []) :
    ∀ yas, ∀ e ∈ staticSeriesSpec t jx jid colors shapes ids yas,
      emptySeriesEv e = true := by
  intro yas
  induction yas with
  | nil => intro e he; exact absurd he (List.not_mem_nil _)
  | cons ya rest ih =>
    intro e he
    rcases List.mem_append.mp he with h | h
    · exact idsScatterSpec_empty t jx _ jid colors shapes ht ids 0 e h
    · exact ih e h

/-- C7: a supplied filter list matching no row loads as a zero-row table
with the empty-data warning (no exception), and the static renderer then
completes without error, emitting only empty series and ending with the
`savefig` output call — a valid empty artifact. -/
theorem c7_no_match_empty_render (t : Table) (cfg : GraphConfig)
    (ids : List Str) (j jx : ℕ) (xa f : Str)
    (hne : ids ≠ [])
    (hd : t.colIdx decDateCol = none)
    (hj : t.colIdx cometIdCol = some j)
    (hw : ∀ r ∈ t.rows, r.length = t.cols.length)
    (hmatch : ∀ r ∈ t.rows,
      pyStrip (cellToStr (r.getD j Cell.na)) ∉ ids.map pyStrip)
    (hxa : cfg.x_axis = some xa) (hjx : t.colIdx xa = some jx)
    (hu : cfg.use_uncertainties = false)
    (hde : hasColumn t deltaTCol = false)
    (hc : cfg.colors ≠ []) (hs : cfg.shapes ≠ [])
    (hys : ∀ ya ∈ cfg.y_axes, (t.colIdx (pyStrip ya)).isSome = true)
    (hxt : cfg.x_ticks = none) (hyt : cfg.y_ticks = none)
    (hof : cfg.output_file = some f) :
    ∃ dp : DataProcessor, mkDataProcessor (some ids) t = .ok (dp, true) ∧
      dp.data.rows = [] ∧
      (render_static cfg dp).2 = .ok () ∧
      (render_static cfg dp).1.getLast? = some (Ev.savefig f cfg.output_format) ∧
      ∀ e ∈ (render_static cfg dp).1, emptySeriesEv e = true := by
  have hload := c6_filter_membership t ids j hne hd hj hw
  have hfil : t.rows.filter (fun r =>
      decide (pyStrip (cellToStr (r.getD j Cell.na)) ∈ ids.map pyStrip)) = [] := by
    rw [List.filter_eq_nil_iff]
    intro r hr
    simp only [decide_eq_true_eq]
    exact hmatch r hr
  rw [hfil] at hload
  simp only [List.map_nil, List.isEmpty_nil] at hload
  have hrun := render_static_run_ok cfg
    { data := { cols := t.cols, rows := [] },
      comet_ids := some (ids.map pyStrip) } xa jx j (ids.map pyStrip) f hxa hjx
    rfl hj hu hde hc hs hys hxt hyt hof
  have hall : (staticSeriesSpec { cols := t.cols, rows := [] } jx j cfg.colors
      cfg.shapes (ids.map pyStrip) cfg.y_axes).all emptySeriesEv = true := by
    rw [List.all_eq_true]
    intro e he
    exact staticSeriesSpec_empty _ jx j _ _ _ rfl _ e he
  refine ⟨{ data := { cols := t.cols, rows := [] },
            comet_ids := some (ids.map pyStrip) }, ?_, rfl, ?_, ?_, ?_⟩
  · unfold mkDataProcessor
    rw [hload]
  · rw [hrun]
  · rw [hrun]
    exact List.getLast?_concat _
  · intro e he
    rw [hrun] at he
    refine List.all_eq_true.mp ?_ e he
    simp only [List.all_append, List.all_cons, List.all_nil, hall,
      Bool.and_true, Bool.true_and, Bool.and_self]
    rcases Bool.eq_false_or_eq_true cfg.legend with hleg | hleg <;>
      rw [hleg] <;> simp [emptySeriesEv]

/-- Witness for C7: a one-row table whose identifier matches no filter
key renders an empty artifact. -/
theorem c7_no_match_empty_render_witness :
    ∃ dp : DataProcessor,
      mkDataProcessor (some ["A".toList]) tblC7 = .ok (dp, true) ∧
      dp.data.rows = [] ∧
      (render_static cfgBase dp).2 = .ok () ∧
      (render_static cfgBase dp).1.getLast?
        = some (Ev.savefig ("out.png".toList) cfgBase.output_format) ∧
      ∀ e ∈ (render_static cfgBase dp).1, emptySeriesEv e = true :=
  c7_no_match_empty_render tblC7 cfgBase ["A".toList] 2 0 colX
    ("out.png".toList) (by decide) rfl rfl (by decide) (by decide) rfl rfl rfl
    (by decide) (by decide) (by decide) (by decide) rfl rfl rfl
